import Mathlib

/-!
# Verification of the key-lifecycle and rotation-audit subsystem

A shallow embedding, in Lean 4, of the key-lifecycle subsystem of the
repository (KeyLifecycleManager, KeyLifecycleService, KeyMetadataRepository,
KeyMetadataRepositoryValidator), together with theorems settling the
specification claims about it.

Modelling conventions:
* JavaScript millisecond timestamps (`Date`) are modelled as `Int`.
* JavaScript runtime values, as seen by the repository validator and the
  JSON serialization layer, are modelled by the inductive `JsValue`
  (with `JsArr`/`JsObj` spines so that structural recursion is available).
* Asynchronous file I/O is modelled by explicit state passing over
  `SysState`; `throw` is modelled by `Except String`.
* The AEAD encrypt/decrypt primitive, the encrypted-value prefix marker and
  the base env-file name are external collaborators of the subsystem and
  are therefore parameters (`CryptoOps`).
-/

/-! ## JavaScript numeric helpers -/

/-- `Math.ceil(a / b)` for an integer numerator and positive integer
denominator, as used by `calculateKeyAge`. -/
def jsCeilDiv (a b : Int) : Int := -((-a) / b)

/-- `Math.floor(a / b)` for an integer numerator and positive integer
denominator, as used by `calculateDaysSinceLastRotation`. -/
def jsFloorDiv (a b : Int) : Int := a / b

/-- Milliseconds per day: `1000 * 60 * 60 * 24`. -/
def msPerDay : Int := 86400000

/-- JavaScript `ToInt32` wrap (the effect of `hash |= 0`). -/
def wrap32 (n : Int) : Int := Int.emod (n + 2147483648) 4294967296 - 2147483648

/-- One step of the rolling hash in `KeyLifecycleManager.hashKey`:
`hash = (hash << 5) - hash + char; hash |= 0`. -/
def hashKeyStep (h : Int) (c : Nat) : Int := wrap32 (wrap32 (h * 32) - h + (c : Int))

/-- Lowercase hex digit list of a natural number (JS `Number.toString(16)`). -/
def hexDigits (n : Nat) : List Char :=
  if h : n < 16 then [Nat.digitChar n]
  else hexDigits (n / 16) ++ [Nat.digitChar (n % 16)]
decreasing_by exact Nat.div_lt_self (Nat.lt_of_lt_of_le (by decide) (Nat.le_of_not_lt h)) (by decide)

/-- `KeyLifecycleManager.hashKey`: 32-bit rolling hash of the key text,
rendered as lowercase hex of its absolute value.  Characters are modelled by
their Unicode scalar values (UTF-16 surrogate pairs are not modelled). -/
def hashKey (key : String) : String :=
  let h := key.data.foldl (fun h c => hashKeyStep h c.toNat) 0
  String.mk (hexDigits h.natAbs)

/-! ## ISO-8601 date codec

Models the JavaScript runtime's `Date.prototype.toISOString` (used by
`JSON.stringify` on `Date` fields) and the ISO parsing performed by
`new Date(string)` inside `KeyMetadataRepository.dateReviver`.  Only the
canonical `YYYY-MM-DDTHH:MM:SS.sssZ` format for years 0–9999 is modelled;
the per-map codec hypotheses of the round-trip theorems are decidable and
check exactly the dates actually occurring in a map. -/

/-- Civil date from days since the Unix epoch (Gregorian calendar). -/
def civilFromDays (z : Int) : Int × Int × Int :=
  let z := z + 719468
  let era := Int.ediv z 146097
  let doe := z - era * 146097
  let yoe := Int.ediv (doe - Int.ediv doe 1460 + Int.ediv doe 36524 - Int.ediv doe 146096) 365
  let y := yoe + era * 400
  let doy := doe - (365 * yoe + Int.ediv yoe 4 - Int.ediv yoe 100)
  let mp := Int.ediv (5 * doy + 2) 153
  let d := doy - Int.ediv (153 * mp + 2) 5 + 1
  let m := if mp < 10 then mp + 3 else mp - 9
  (if m ≤ 2 then y + 1 else y, m, d)

/-- Days since the Unix epoch from a civil (Gregorian) date. -/
def daysFromCivil (y m d : Int) : Int :=
  let y := if m ≤ 2 then y - 1 else y
  let era := Int.ediv y 400
  let yoe := y - era * 400
  let doy := Int.ediv (153 * (if 2 < m then m - 3 else m + 9) + 2) 5 + d - 1
  let doe := yoe * 365 + Int.ediv yoe 4 - Int.ediv yoe 100 + doy
  era * 146097 + doe - 719468

/-- Zero-pads the decimal rendering of `n` to (at least) `w` digits. -/
def padNum (w : Nat) (n : Nat) : String :=
  let s := toString n
  String.mk (List.replicate (w - s.length) '0') ++ s

/-- `Date.prototype.toISOString` for years 0–9999. -/
def epochMsToIso (t : Int) : String :=
  let days := Int.ediv t msPerDay
  let msod := (Int.emod t msPerDay).toNat
  let c := civilFromDays days
  let y := c.1
  let m := c.2.1
  let d := c.2.2
  padNum 4 y.toNat ++ "-" ++ padNum 2 m.toNat ++ "-" ++ padNum 2 d.toNat ++ "T" ++
    padNum 2 (msod / 3600000) ++ ":" ++ padNum 2 (msod % 3600000 / 60000) ++ ":" ++
    padNum 2 (msod % 60000 / 1000) ++ "." ++ padNum 3 (msod % 1000) ++ "Z"

/-- Decimal digit value of a character, if it is a digit. -/
def digitVal (c : Char) : Option Nat :=
  if c.isDigit then some (c.toNat - 48) else none

/-- Whether `y` is a Gregorian leap year. -/
def isLeapYear (y : Nat) : Bool := y % 4 = 0 && (y % 100 ≠ 0 || y % 400 = 0)

/-- Days in month `m` of year `y`. -/
def daysInMonth (y m : Nat) : Nat :=
  if m = 2 then (if isLeapYear y then 29 else 28)
  else if m = 4 || m = 6 || m = 9 || m = 11 then 30 else 31

/-- ISO parsing performed by `new Date(string)` in `dateReviver`, restricted
to the canonical `YYYY-MM-DDTHH:MM:SS.sssZ` format; `none` models
`Invalid Date` (`isNaN(date.getTime())`). -/
def isoToEpochMs (s : String) : Option Int :=
  match s.data with
  | [y1, y2, y3, y4, s1, mo1, mo2, s2, d1, d2, s3, h1, h2, s4, mi1, mi2, s5,
     se1, se2, s6, f1, f2, f3, s7] =>
    if s1 = '-' && s2 = '-' && s3 = 'T' && s4 = ':' && s5 = ':' && s6 = '.' && s7 = 'Z' then
      match digitVal y1, digitVal y2, digitVal y3, digitVal y4, digitVal mo1, digitVal mo2,
            digitVal d1, digitVal d2, digitVal h1, digitVal h2, digitVal mi1, digitVal mi2,
            digitVal se1, digitVal se2, digitVal f1, digitVal f2, digitVal f3 with
      | some a, some b, some c, some d, some e, some f, some g, some h, some i, some j,
        some k, some l, some m, some n, some o, some p, some q =>
        let year := a * 1000 + b * 100 + c * 10 + d
        let month := e * 10 + f
        let day := g * 10 + h
        let hour := i * 10 + j
        let minute := k * 10 + l
        let second := m * 10 + n
        let milli := o * 100 + p * 10 + q
        if 1 ≤ month && month ≤ 12 && 1 ≤ day && day ≤ daysInMonth year month &&
            hour ≤ 23 && minute ≤ 59 && second ≤ 59 then
          some (daysFromCivil (year : Int) (month : Int) (day : Int) * msPerDay +
            ((hour * 3600000 + minute * 60000 + second * 1000 + milli : Nat) : Int))
        else none
      | _, _, _, _, _, _, _, _, _, _, _, _, _, _, _, _, _ => none
    else none
  | _ => none


/-! ## JavaScript runtime values

`JsValue` models the decoded JavaScript values that
`KeyMetadataRepositoryValidator` inspects: the result of
`JSON.parse(content, dateReviver)` (so ISO strings under allowlisted field
names have already been turned into `Date`s, modelled by `.jdate`).
Array and object spines are separate inductives so that structural
recursion and induction are available. -/

mutual
inductive JsValue where
  | jnull
  | jbool (b : Bool)
  | jnum (n : Int)
  | jstr (s : String)
  | jdate (t : Int)
  | jarr (elems : JsArr)
  | jobj (fields : JsObj)

inductive JsArr where
  | nil
  | cons (hd : JsValue) (tl : JsArr)

inductive JsObj where
  | nil
  | cons (name : String) (val : JsValue) (tl : JsObj)
end

/-- Property access `o[name]`; `none` models `undefined`.
(Objects decoded from JSON have no duplicate keys.) -/
def JsObj.find : JsObj → String → Option JsValue
  | .nil, _ => none
  | .cons n v tl, name => if n = name then some v else tl.find name

/-- Property access on an arbitrary value: only plain objects have the
properties the validator reads (`Date`s and arrays have none of them). -/
def JsValue.getProp : JsValue → String → Option JsValue
  | .jobj fs, name => fs.find name
  | _, _ => none

/-- JavaScript falsiness (`!v`); `NaN` does not arise from JSON. -/
def JsValue.falsy : JsValue → Bool
  | .jnull => true
  | .jbool b => !b
  | .jnum n => n = 0
  | .jstr s => s = ""
  | _ => false

/-- `typeof v === 'object'` (true for `null`, arrays, `Date`s, objects). -/
def JsValue.typeofObject : JsValue → Bool
  | .jnull | .jarr _ | .jobj _ | .jdate _ => true
  | _ => false

/-- `Array.isArray v`. -/
def JsValue.isArray : JsValue → Bool
  | .jarr _ => true
  | _ => false

def JsArr.all (p : JsValue → Bool) : JsArr → Bool
  | .nil => true
  | .cons hd tl => p hd && tl.all p

def JsObj.allVals (p : String → JsValue → Bool) : JsObj → Bool
  | .nil => true
  | .cons n v tl => p n v && tl.allVals p

/-- `String.prototype.trim`, implemented structurally so that concrete
instances evaluate inside the kernel. -/
def jsTrim (s : String) : String :=
  String.mk (((s.data.dropWhile Char.isWhitespace).reverse.dropWhile
    Char.isWhitespace).reverse)

/-! ## KeyMetadataRepositoryValidator

Transcription of `KeyMetadataRepositoryValidator` over decoded JavaScript
values.  Each `isX` type guard mirrors the corresponding private static
method; `Date` instances produced by the reviver are always valid dates, so
`isValidDate` holds exactly of `.jdate` values. -/

def VALID_STATUSES : List String := ["healthy", "warning", "critical", "expired"]

def VALID_EVENT_TYPES : List String :=
  ["created", "rotated", "accessed", "warning_issued", "expired", "health_check"]

def VALID_SEVERITIES : List String := ["info", "warning", "error", "critical"]

def VALID_ROTATION_REASONS : List String :=
  ["scheduled", "manual", "expired", "security_breach", "compromised"]

def VALID_CHECK_SOURCES : List String := ["startup", "scheduled", "manual", "api"]

def isValidStatus : JsValue → Bool
  | .jstr s => VALID_STATUSES.contains s
  | _ => false

def isValidEventType : JsValue → Bool
  | .jstr s => VALID_EVENT_TYPES.contains s
  | _ => false

def isValidSeverity : JsValue → Bool
  | .jstr s => VALID_SEVERITIES.contains s
  | _ => false

def isValidRotationReason : JsValue → Bool
  | .jstr s => VALID_ROTATION_REASONS.contains s
  | _ => false

def isValidCheckSource : JsValue → Bool
  | .jstr s => VALID_CHECK_SOURCES.contains s
  | _ => false

def isNonEmptyStringJ : JsValue → Bool
  | .jstr s => (jsTrim s).length > 0
  | _ => false

def isValidDateJ : JsValue → Bool
  | .jdate _ => true
  | _ => false

/-- `isPositiveNumber` in the source actually checks `value >= 0`. -/
def isPositiveNumberJ : JsValue → Bool
  | .jnum n => 0 ≤ n
  | _ => false

def isStringArrayJ : JsValue → Bool
  | .jarr xs => xs.all fun v => match v with | .jstr _ => true | _ => false
  | _ => false

def isStringJ : JsValue → Bool
  | .jstr _ => true
  | _ => false

def isBooleanJ : JsValue → Bool
  | .jbool _ => true
  | _ => false

def isNumberJ : JsValue → Bool
  | .jnum _ => true
  | _ => false

/-- A required property: present and passing the guard. -/
def reqProp (g : JsValue → Bool) (v : JsValue) (name : String) : Bool :=
  match v.getProp name with
  | some x => g x
  | none => false

/-- An optional property: `x !== undefined && !g(x)` fails validation. -/
def optProp (g : JsValue → Bool) (v : JsValue) (name : String) : Bool :=
  match v.getProp name with
  | some x => g x
  | none => true

/-- `!v || typeof v !== 'object' || Array.isArray(v)`. -/
def notPlainObject (v : JsValue) : Bool := v.falsy || !v.typeofObject || v.isArray

def validateBasicStructure (meta : JsValue) : Bool :=
  reqProp isNonEmptyStringJ meta "keyName" &&
  reqProp isValidDateJ meta "createdAt" &&
  reqProp isPositiveNumberJ meta "rotationCount" &&
  optProp isValidDateJ meta "lastRotatedAt"

def validateRotationConfigV (config : Option JsValue) : Bool :=
  match config with
  | none => false
  | some c =>
    if notPlainObject c then false
    else
      -- `isPositiveNumber(x) && x !== 0` twice, then `warning < maxAge`;
      -- all three checks require both fields to be numbers.
      match c.getProp "maxAgeInDays", c.getProp "warningThresholdInDays" with
      | some (.jnum m), some (.jnum w) => (0 ≤ m && m ≠ 0) && (0 ≤ w && w ≠ 0) && w < m
      | _, _ => false

def validateAuditEvent (e : JsValue) : Bool :=
  if notPlainObject e then false
  else
    reqProp isValidDateJ e "timestamp" &&
    reqProp isValidEventType e "eventType" &&
    reqProp isValidSeverity e "severity" &&
    reqProp isNonEmptyStringJ e "source" &&
    reqProp isStringJ e "details" &&
    optProp (fun m => m.typeofObject && !m.isArray) e "metadata"

def validateRotationEvent (e : JsValue) : Bool :=
  if notPlainObject e then false
  else
    reqProp isValidDateJ e "timestamp" &&
    reqProp isValidRotationReason e "reason" &&
    reqProp isStringArrayJ e "affectedEnvironments" &&
    reqProp isStringArrayJ e "affectedVariables" &&
    reqProp isBooleanJ e "success" &&
    optProp isStringJ e "oldKeyHash" &&
    optProp isStringJ e "newKeyHash" &&
    optProp isStringJ e "errorDetails" &&
    optProp isBooleanJ e "overrideMode"

def validateHealthCheckEvent (e : JsValue) : Bool :=
  if notPlainObject e then false
  else
    reqProp isValidDateJ e "timestamp" &&
    reqProp isPositiveNumberJ e "ageInDays" &&
    reqProp isNumberJ e "daysUntilExpiry" &&
    reqProp isValidStatus e "status" &&
    reqProp isValidCheckSource e "checkSource" &&
    optProp isStringArrayJ e "recommendations"

def validateAuditTrail (auditTrail : Option JsValue) : Bool :=
  match auditTrail with
  | none => false
  | some a =>
    if notPlainObject a then false
    else
      optProp isValidDateJ a "lastScheduledCheck" &&
      optProp isValidDateJ a "lastHealthCheck" &&
      optProp isValidDateJ a "lastWarningIssued" &&
      (match a.getProp "auditEvents" with
       | some (.jarr xs) => xs.all validateAuditEvent
       | _ => false) &&
      (match a.getProp "rotationHistory" with
       | some (.jarr xs) => xs.all validateRotationEvent
       | _ => false) &&
      (match a.getProp "healthCheckHistory" with
       | some (.jarr xs) => xs.all validateHealthCheckEvent
       | _ => false)

def validateUsageTracking (usageTracking : Option JsValue) : Bool :=
  match usageTracking with
  | none => false
  | some u =>
    if notPlainObject u then false
    else
      optProp isValidDateJ u "lastAccessedAt" &&
      reqProp isStringArrayJ u "environmentsUsedIn" &&
      reqProp isStringArrayJ u "dependentVariables"

def validateStatusTracking (statusTracking : Option JsValue) : Bool :=
  match statusTracking with
  | none => false
  | some st =>
    if notPlainObject st then false
    else
      reqProp isValidStatus st "currentStatus" &&
      reqProp isValidDateJ st "lastStatusChange"

def validateMetadata (metadata : JsValue) : Bool :=
  if notPlainObject metadata then false
  else
    validateBasicStructure metadata &&
    validateRotationConfigV (metadata.getProp "rotationConfig") &&
    validateAuditTrail (metadata.getProp "auditTrail") &&
    validateUsageTracking (metadata.getProp "usageTracking") &&
    validateStatusTracking (metadata.getProp "statusTracking")

/-- `KeyMetadataRepositoryValidator.validateMetadataRecord`: every entry of
the decoded top-level object must be well-formed `KeyMetadata`. -/
def validateMetadataRecord (metadata : JsValue) : Bool :=
  if metadata.falsy || !metadata.typeofObject || metadata.isArray then false
  else
    match metadata with
    | .jobj fs => fs.allVals fun _ v => validateMetadata v
    | _ => true

/-! ## KeyLifecycleManager.validateRotationConfig (runtime-value level)

The manager's `validateRotationConfig(config)` throws (`logAndThrow`) on bad
configs and returns the config unchanged otherwise.  TypeScript types are
erased at runtime, so the function really operates on arbitrary values. -/

def validateRotationConfig (config : JsValue) : Except String JsValue :=
  if config.falsy || !config.typeofObject then
    .error "Invalid rotation config: config must be an object"
  else if !(match config.getProp "maxAgeInDays" with
            | some (.jnum n) => 0 < n
            | _ => false) then
    .error "Invalid rotation config: maxAgeInDays must be a positive number"
  else if !(match config.getProp "warningThresholdInDays" with
            | some (.jnum n) => 0 ≤ n
            | _ => false) then
    .error "Invalid rotation config: warningThresholdInDays must be a non-negative number"
  else if (match config.getProp "warningThresholdInDays", config.getProp "maxAgeInDays" with
           | some (.jnum w), some (.jnum m) => decide (m ≤ w)
           | _, _ => false) then
    .error "Invalid rotation config: warningThresholdInDays must be less than maxAgeInDays"
  else
    .ok config

/-! ## KeyMetadataRepository.readKeyMetadata

The backing file is modelled by `MetadataFile`; `JSON.parse` with the date
reviver is the parameter `parse` (`none` = malformed JSON, i.e. the parse
throws).  The decoded empty map is `JsValue.jobj .nil`. -/

inductive MetadataFile where
  /-- `doesFileExist` returns false. -/
  | absent
  /-- The file exists and reads as `content`. -/
  | present (content : String)
  /-- Reading the file throws an I/O error (caught by the outer handler). -/
  | unreadable

/-- `KeyMetadataRepository.readKeyMetadata`.  All failure modes are caught
and yield the empty map; the function never propagates an error. -/
def readKeyMetadataJ (parse : String → Option JsValue) (file : MetadataFile) :
    Except String JsValue :=
  match file with
  | .absent => .ok (.jobj .nil)
  | .unreadable => .ok (.jobj .nil)
  | .present content =>
    if jsTrim content = "" then .ok (.jobj .nil)
    else
      match parse content with
      | none => .ok (.jobj .nil)     -- logAndThrow, caught by the outer catch
      | some metadata =>
        if !validateMetadataRecord metadata then .ok (.jobj .nil)
        else .ok metadata

/-! ## JSON serialization (`writeKeyMetadata` / `readKeyMetadata` pipeline)

`writeKeyMetadata` persists `JSON.stringify(metadata, null, 2)`;
`readKeyMetadata` decodes with `JSON.parse(content, dateReviver)`.  We model
the persisted text at the JSON-tree level (`Json`): `JSON.parse ∘
JSON.stringify` is the identity on JSON trees, so the write→read pipeline is
`reviveJson "" ∘ stringifyJs`. -/

mutual
inductive Json where
  | null
  | bool (b : Bool)
  | num (n : Int)
  | str (s : String)
  | arr (elems : JsonArr)
  | obj (fields : JsonObj)

inductive JsonArr where
  | nil
  | cons (hd : Json) (tl : JsonArr)

inductive JsonObj where
  | nil
  | cons (name : String) (val : Json) (tl : JsonObj)
end

/-- The fixed field-name allowlist of `dateReviver`, as a boolean test
(`dateFields.includes(key)`). -/
def isDateField (key : String) : Bool :=
  key = "createdAt" || key = "lastRotatedAt" || key = "lastAccessedAt" ||
  key = "lastStatusChange" || key = "lastScheduledCheck" || key = "lastHealthCheck" ||
  key = "lastWarningIssued" || key = "timestamp"

mutual
/-- `JSON.stringify` on a runtime value (ignoring pretty-printing):
`Date`s serialize through `Date.prototype.toJSON` to ISO strings. -/
def stringifyJs : JsValue → Json
  | .jnull => .null
  | .jbool b => .bool b
  | .jnum n => .num n
  | .jstr s => .str s
  | .jdate t => .str (epochMsToIso t)
  | .jarr xs => .arr (stringifyArr xs)
  | .jobj fs => .obj (stringifyObj fs)

def stringifyArr : JsArr → JsonArr
  | .nil => .nil
  | .cons hd tl => .cons (stringifyJs hd) (stringifyArr tl)

def stringifyObj : JsObj → JsonObj
  | .nil => .nil
  | .cons n v tl => .cons n (stringifyJs v) (stringifyObj tl)
end

mutual
/-- `JSON.parse(_, dateReviver)` on a JSON tree: the reviver runs at every
node with the property name (or array index, or `""` at the root) as `key`
and converts a string under an allowlisted key through `new Date(string)`.
ECMA-262 pins that conversion down only on its Date Time String Format and
leaves every other string implementation-defined, so — exactly like
`JSON.parse` itself in `readKeyMetadataJ` — the engine's string-to-time
parse is a parameter `dp`.  A conforming engine's `dp` agrees with
`isoToEpochMs` wherever the latter succeeds, since the domain of
`isoToEpochMs` is the canonical 24-character UTC form (a mandated case of
the Date Time String Format), and that is the hypothesis the round-trip
theorem carries. -/
def reviveJson (dp : String → Option Int) (key : String) : Json → JsValue
  | .null => .jnull
  | .bool b => .jbool b
  | .num n => .jnum n
  | .str s =>
    if isDateField key then
      match dp s with
      | some t => .jdate t
      | none => .jstr s     -- isNaN(date.getTime()) ⇒ keep the string
    else .jstr s
  | .arr es => .jarr (reviveArr dp 0 es)
  | .obj fs => .jobj (reviveObj dp fs)

def reviveArr (dp : String → Option Int) (i : Nat) : JsonArr → JsArr
  | .nil => .nil
  | .cons hd tl => .cons (reviveJson dp (toString i) hd) (reviveArr dp (i + 1) tl)

def reviveObj (dp : String → Option Int) : JsonObj → JsObj
  | .nil => .nil
  | .cons n v tl => .cons n (reviveJson dp n v) (reviveObj dp tl)
end

mutual
/-- A value sitting under property name `key` survives the
stringify-then-revive pipeline unchanged on EVERY conforming engine: dates
only under allowlisted names (and round-tripping through the canonical
codec), and no raw string at all under an allowlisted name.  The string
condition must be syntactic: ECMA-262 mandates that `new Date` parse many
non-canonical forms (`"2024-01-01"`, `"2024-01-01T00:00:00Z"`, …) and
leaves the rest implementation-defined, so no particular string can be
certified unparseable across engines. -/
def jsReviveSafe (key : String) : JsValue → Bool
  | .jstr _ => !(isDateField key)
  | .jdate t => isDateField key && isoToEpochMs (epochMsToIso t) == some t
  | .jarr xs => arrReviveSafe 0 xs
  | .jobj fs => objReviveSafe fs
  | _ => true

def arrReviveSafe (i : Nat) : JsArr → Bool
  | .nil => true
  | .cons hd tl => jsReviveSafe (toString i) hd && arrReviveSafe (i + 1) tl

def objReviveSafe : JsObj → Bool
  | .nil => true
  | .cons n v tl => jsReviveSafe n v && objReviveSafe tl
end


/-! ## Typed data model (`keyManagement.types`)

The structures below transcribe the TypeScript interfaces.  Optional
(`x?:`) fields are `Option`s; the three audit-trail arrays and the
`usageTracking`/`statusTracking` sub-records are always present in
well-typed data, so the defensive `ensure*Structure` branches of the
manager are identities here.  Audit-event `metadata` bags are modelled by
the bounded value union actually produced by the subsystem (strings,
numbers, booleans, string lists). -/

inductive KeyStatus where
  | healthy | warning | critical | expired
deriving DecidableEq, Repr

inductive EventType where
  | created | rotated | accessed | warning_issued | expired | health_check
deriving DecidableEq, Repr

inductive EventSeverity where
  | info | warning | error | critical
deriving DecidableEq, Repr

inductive RotationReason where
  | scheduled | manual | expired | security_breach | compromised
deriving DecidableEq, Repr

inductive CheckSource where
  | startup | scheduled | manual | api
deriving DecidableEq, Repr

inductive SystemHealth where
  | healthy | warning | critical
deriving DecidableEq, Repr

def KeyStatus.toStr : KeyStatus → String
  | .healthy => "healthy" | .warning => "warning"
  | .critical => "critical" | .expired => "expired"

def EventType.toStr : EventType → String
  | .created => "created" | .rotated => "rotated" | .accessed => "accessed"
  | .warning_issued => "warning_issued" | .expired => "expired"
  | .health_check => "health_check"

def EventSeverity.toStr : EventSeverity → String
  | .info => "info" | .warning => "warning" | .error => "error" | .critical => "critical"

def RotationReason.toStr : RotationReason → String
  | .scheduled => "scheduled" | .manual => "manual" | .expired => "expired"
  | .security_breach => "security_breach" | .compromised => "compromised"

def CheckSource.toStr : CheckSource → String
  | .startup => "startup" | .scheduled => "scheduled" | .manual => "manual" | .api => "api"

/-- Bounded value union of audit-event `metadata` bags. -/
inductive BagValue where
  | bstr (s : String)
  | bnum (n : Int)
  | bbool (b : Bool)
  | bstrList (xs : List String)
deriving DecidableEq, Repr

structure KeyRotationConfig where
  maxAgeInDays : Int
  warningThresholdInDays : Int
deriving DecidableEq, Repr

/-- `KeyRotationConfigDefaults` from `keyRotationConfig.constants.ts`. -/
def KeyRotationConfigDefaults : KeyRotationConfig :=
  { maxAgeInDays := 90, warningThresholdInDays := 7 }

structure AuditEvent where
  timestamp : Int
  eventType : EventType
  severity : EventSeverity
  source : String
  details : String
  metadata : Option (List (String × BagValue)) := none
deriving DecidableEq, Repr

structure RotationEvent where
  timestamp : Int
  reason : RotationReason
  oldKeyHash : Option String := none
  newKeyHash : Option String := none
  affectedEnvironments : List String
  affectedVariables : List String
  success : Bool
  errorDetails : Option String := none
  overrideMode : Option Bool := none
deriving DecidableEq, Repr

structure HealthCheckEvent where
  timestamp : Int
  ageInDays : Int
  daysUntilExpiry : Int
  status : KeyStatus
  checkSource : CheckSource
  recommendations : Option (List String) := none
deriving DecidableEq, Repr

structure AuditTrail where
  lastScheduledCheck : Option Int := none
  lastHealthCheck : Option Int := none
  lastWarningIssued : Option Int := none
  auditEvents : List AuditEvent
  rotationHistory : List RotationEvent
  healthCheckHistory : List HealthCheckEvent
deriving DecidableEq, Repr

structure UsageTracking where
  lastAccessedAt : Option Int := none
  environmentsUsedIn : List String
  dependentVariables : List String
deriving DecidableEq, Repr

structure StatusTracking where
  currentStatus : KeyStatus
  lastStatusChange : Int
deriving DecidableEq, Repr

structure KeyMetadata where
  keyName : String
  createdAt : Int
  lastRotatedAt : Option Int := none
  rotationCount : Int
  rotationConfig : KeyRotationConfig
  auditTrail : AuditTrail
  usageTracking : UsageTracking
  statusTracking : StatusTracking
deriving DecidableEq, Repr

structure RotationResult where
  success : Bool
  reEncryptedCount : Nat
  affectedFiles : List String
deriving DecidableEq, Repr

/-- The result shape of `checkKeyRotationStatus`. -/
structure KeyRotationStatus where
  needsRotation : Bool
  needsWarning : Bool
  ageInDays : Int
  daysUntilRotation : Int
deriving DecidableEq, Repr

structure KeyMetrics where
  averageKeyAge : Rat
  oldestKeyAge : Int
  newestKeyAge : Int
deriving DecidableEq, Repr

structure AuditSummary where
  totalKeys : Int
  healthyKeys : Int
  warningKeys : Int
  criticalKeys : Int
  expiredKeys : Int
  averageKeyAge : Rat
  oldestKeyAge : Int
  newestKeyAge : Int
  totalAuditEvents : Int
  totalRotations : Int
  lastRotation : Option Int := none
  lastHealthCheck : Option Int := none
  lastAccess : Option Int := none
  currentStatus : SystemHealth
deriving DecidableEq, Repr

/-! ## Encoding typed records as runtime values

`encodeX` renders a typed record as the JavaScript object the code actually
holds in memory (and passes to validation and `JSON.stringify`).  `none`
optional fields are simply absent (JavaScript code never distinguishes an
absent property from one set to `undefined`, and `JSON.stringify` drops
both). -/

def listToArr (f : α → JsValue) : List α → JsArr
  | [] => .nil
  | x :: xs => .cons (f x) (listToArr f xs)

def strListToArr (l : List String) : JsArr := listToArr JsValue.jstr l

/-- Prepend an optional property. -/
def optField (name : String) (v : Option JsValue) (rest : JsObj) : JsObj :=
  match v with
  | some x => .cons name x rest
  | none => rest

def encodeBagValue : BagValue → JsValue
  | .bstr s => .jstr s
  | .bnum n => .jnum n
  | .bbool b => .jbool b
  | .bstrList xs => .jarr (strListToArr xs)

def encodeBag : List (String × BagValue) → JsObj
  | [] => .nil
  | (n, v) :: rest => .cons n (encodeBagValue v) (encodeBag rest)

def encodeAuditEvent (e : AuditEvent) : JsValue :=
  .jobj (.cons "timestamp" (.jdate e.timestamp)
    (.cons "eventType" (.jstr e.eventType.toStr)
      (.cons "severity" (.jstr e.severity.toStr)
        (.cons "source" (.jstr e.source)
          (.cons "details" (.jstr e.details)
            (optField "metadata" (e.metadata.map fun b => .jobj (encodeBag b)) .nil))))))

def encodeRotationEvent (e : RotationEvent) : JsValue :=
  .jobj (.cons "timestamp" (.jdate e.timestamp)
    (.cons "reason" (.jstr e.reason.toStr)
      (optField "oldKeyHash" (e.oldKeyHash.map JsValue.jstr)
        (optField "newKeyHash" (e.newKeyHash.map JsValue.jstr)
          (.cons "affectedEnvironments" (.jarr (strListToArr e.affectedEnvironments))
            (.cons "affectedVariables" (.jarr (strListToArr e.affectedVariables))
              (.cons "success" (.jbool e.success)
                (optField "errorDetails" (e.errorDetails.map JsValue.jstr)
                  (optField "overrideMode" (e.overrideMode.map JsValue.jbool) .nil)))))))))

def encodeHealthCheckEvent (e : HealthCheckEvent) : JsValue :=
  .jobj (.cons "timestamp" (.jdate e.timestamp)
    (.cons "ageInDays" (.jnum e.ageInDays)
      (.cons "daysUntilExpiry" (.jnum e.daysUntilExpiry)
        (.cons "status" (.jstr e.status.toStr)
          (.cons "checkSource" (.jstr e.checkSource.toStr)
            (optField "recommendations"
              (e.recommendations.map fun l => .jarr (strListToArr l)) .nil))))))

def encodeAuditTrail (a : AuditTrail) : JsValue :=
  .jobj (optField "lastScheduledCheck" (a.lastScheduledCheck.map JsValue.jdate)
    (optField "lastHealthCheck" (a.lastHealthCheck.map JsValue.jdate)
      (optField "lastWarningIssued" (a.lastWarningIssued.map JsValue.jdate)
        (.cons "auditEvents" (.jarr (listToArr encodeAuditEvent a.auditEvents))
          (.cons "rotationHistory" (.jarr (listToArr encodeRotationEvent a.rotationHistory))
            (.cons "healthCheckHistory"
              (.jarr (listToArr encodeHealthCheckEvent a.healthCheckHistory)) .nil))))))

def encodeUsageTracking (u : UsageTracking) : JsValue :=
  .jobj (optField "lastAccessedAt" (u.lastAccessedAt.map JsValue.jdate)
    (.cons "environmentsUsedIn" (.jarr (strListToArr u.environmentsUsedIn))
      (.cons "dependentVariables" (.jarr (strListToArr u.dependentVariables)) .nil)))

def encodeStatusTracking (st : StatusTracking) : JsValue :=
  .jobj (.cons "currentStatus" (.jstr st.currentStatus.toStr)
    (.cons "lastStatusChange" (.jdate st.lastStatusChange) .nil))

def encodeRotationConfig (c : KeyRotationConfig) : JsValue :=
  .jobj (.cons "maxAgeInDays" (.jnum c.maxAgeInDays)
    (.cons "warningThresholdInDays" (.jnum c.warningThresholdInDays) .nil))

def encodeKeyMetadata (m : KeyMetadata) : JsValue :=
  .jobj (.cons "keyName" (.jstr m.keyName)
    (.cons "createdAt" (.jdate m.createdAt)
      (optField "lastRotatedAt" (m.lastRotatedAt.map JsValue.jdate)
        (.cons "rotationCount" (.jnum m.rotationCount)
          (.cons "rotationConfig" (encodeRotationConfig m.rotationConfig)
            (.cons "auditTrail" (encodeAuditTrail m.auditTrail)
              (.cons "usageTracking" (encodeUsageTracking m.usageTracking)
                (.cons "statusTracking" (encodeStatusTracking m.statusTracking) .nil))))))))

/-- A metadata store: key name → record, in insertion order. -/
def MetadataStore := List (String × KeyMetadata)

def encodeStoreFields : List (String × KeyMetadata) → JsObj
  | [] => .nil
  | (n, m) :: rest => .cons n (encodeKeyMetadata m) (encodeStoreFields rest)

def encodeStore (st : MetadataStore) : JsValue := .jobj (encodeStoreFields st)

/-! ## Association-list primitives (JS object / env-file line semantics) -/

/-- `obj[key]` on the typed store (no duplicate keys in real objects). -/
def lookupKM : List (String × α) → String → Option α
  | [], _ => none
  | (n, v) :: rest, key => if n = key then some v else lookupKM rest key

/-- `obj[key] = value`: update in place if present, else append (JS object
insertion-order semantics). -/
def setKM (l : List (String × α)) (key : String) (v : α) : List (String × α) :=
  match l with
  | [] => [(key, v)]
  | (n, w) :: rest => if n = key then (n, v) :: rest else (n, w) :: setKM rest key v

/-! ## System state and external collaborators -/

/-- The mutable world of the subsystem: the metadata store and the secret /
environment files.  Files are modelled as association lists of
`KEY=value` lines keyed by file path. -/
structure SysState where
  metadata : MetadataStore
  files : List (String × List (String × String))

/-- External collaborators (AEAD primitive, recognized-encrypted-value
prefix marker `SECURITY_CONSTANTS.FORMAT.PREFIX`, and the
`EnvironmentConstants.BASE_ENV_FILE` path). -/
structure CryptoOps where
  encrypt : String → String → Except String String
  decrypt : String → String → Except String String
  encMarker : String
  baseEnvFile : String

/-- `EnvironmentSecretFileManager.getKeyValue(file, name)`. -/
def getKeyValue (s : SysState) (file name : String) : Option String :=
  match lookupKM s.files file with
  | some lines => lookupKM lines name
  | none => none

/-- `EnvironmentSecretFileManager.updateKeyValue(file, name, value)`. -/
def updateKeyValue (s : SysState) (file name value : String) : SysState :=
  let lines := (lookupKM s.files file).getD []
  { s with files := setKM s.files file (setKM lines name value) }

/-! ## KeyMetadataRepository (typed store level)

`readKeyMetadata` validates what it decodes and falls back to the empty
map; `writeKeyMetadata` validates before committing and throws otherwise
(the pre-write backup is best-effort and has no observable effect here).
Validation is the transcribed `validateMetadataRecord` applied to the
in-memory object encoding of the store. -/

def readKeyMetadataT (s : SysState) : MetadataStore :=
  if validateMetadataRecord (encodeStore s.metadata) then s.metadata else []

def writeKeyMetadataT (s : SysState) (st : MetadataStore) : Except String SysState :=
  if validateMetadataRecord (encodeStore st) then .ok { s with metadata := st }
  else .error "Metadata validation failed before writing"

def updateSingleKeyMetadataT (s : SysState) (keyName : String) (m : KeyMetadata) :
    Except String SysState :=
  writeKeyMetadataT s (setKM (readKeyMetadataT s) keyName m)

/-! ## KeyLifecycleManager — pure calculations -/

/-- `calculateKeyAge`: `ceil(|now − (lastRotatedAt ?? createdAt)| / 86400000)`. -/
def calculateKeyAge (now : Int) (metadata : KeyMetadata) : Int :=
  let referenceDate := metadata.lastRotatedAt.getD metadata.createdAt
  let diffTime : Int := (now - referenceDate).natAbs
  jsCeilDiv diffTime msPerDay

/-- `calculateDaysSinceLastRotation`: `floor((now − (lastRotatedAt ?? createdAt)) / 86400000)`. -/
def calculateDaysSinceLastRotation (now : Int) (km : KeyMetadata) : Int :=
  let lastRotatedAt := km.lastRotatedAt.getD km.createdAt
  jsFloorDiv (now - lastRotatedAt) msPerDay

/-- `calculateDaysUntilExpiry`: `max(0, maxAgeInDays − ageInDays)`. -/
def calculateDaysUntilExpiry (now : Int) (km : KeyMetadata) : Int :=
  max 0 (km.rotationConfig.maxAgeInDays - calculateKeyAge now km)

/-- `KeyLifecycleManager.validateRotationConfig`, specialized to a typed
`KeyRotationConfig` (the `typeof … !== 'number'` guards are discharged by
typing; the range checks remain). -/
def validateRotationConfigT (config : KeyRotationConfig) : Except String KeyRotationConfig :=
  if config.maxAgeInDays ≤ 0 then
    .error "Invalid rotation config: maxAgeInDays must be a positive number"
  else if config.warningThresholdInDays < 0 then
    .error "Invalid rotation config: warningThresholdInDays must be a non-negative number"
  else if config.maxAgeInDays ≤ config.warningThresholdInDays then
    .error "Invalid rotation config: warningThresholdInDays must be less than maxAgeInDays"
  else .ok config

def createEmptyAuditTrail : AuditTrail :=
  { auditEvents := [], rotationHistory := [], healthCheckHistory := [] }

def createDefaultUsageTracking : UsageTracking :=
  { environmentsUsedIn := [], dependentVariables := [] }

def createDefaultStatusTracking (now : Int) : StatusTracking :=
  { currentStatus := .healthy, lastStatusChange := now }

/-- `createDefaultRotationStatus`: the neutral status returned for a key
with no metadata record. -/
def createDefaultRotationStatus (mgrCfg : KeyRotationConfig) : KeyRotationStatus :=
  { needsRotation := false, needsWarning := false, ageInDays := 0,
    daysUntilRotation := mgrCfg.maxAgeInDays }

/-- `getValidatedRotationConfig`: the key's stored config if it validates,
else the manager's own config (logged fallback). -/
def getValidatedRotationConfig (mgrCfg : KeyRotationConfig) (km : KeyMetadata) :
    KeyRotationConfig :=
  match validateRotationConfigT km.rotationConfig with
  | .ok c => c
  | .error _ => mgrCfg

/-- `calculateRotationStatus`.  Note: `maxAge` comes from the `config`
argument (the key's validated stored config) while the warning threshold
comes from `this.keyRotationConfig` — the manager's own config. -/
def calculateRotationStatus (mgrCfg : KeyRotationConfig) (ageInDays : Int)
    (config : KeyRotationConfig) : KeyRotationStatus :=
  let maxAge := config.maxAgeInDays
  let daysUntilRotation := maxAge - ageInDays
  let needsRotation : Bool := maxAge ≤ ageInDays
  let needsWarning : Bool :=
    (daysUntilRotation ≤ mgrCfg.warningThresholdInDays) && !needsRotation
  { needsRotation := needsRotation, needsWarning := needsWarning, ageInDays := ageInDays,
    daysUntilRotation := max 0 daysUntilRotation }

def determineHealthStatusAndRecommendations (status : KeyRotationStatus) :
    KeyStatus × List String :=
  if status.needsRotation then (.critical, ["Immediate rotation required"])
  else if status.needsWarning then
    (.warning, ["Consider rotating within " ++ toString status.daysUntilRotation ++ " days"])
  else (.healthy, [])

/-! ## KeyLifecycleManager — audit bookkeeping (state-passing)

`recordAuditEvent`, `recordHealthCheck` and `recordKeyAccess` wrap their
bodies in `try`/`catch` and only log failures, so they return a plain
`SysState`: a failing metadata write leaves the store untouched and no
error reaches the caller. -/

/-- `recordAuditEvent`: push the event, trim to the last 100, persist. -/
def recordAuditEvent (now : Int) (s : SysState) (keyName : String) (eventType : EventType)
    (severity : EventSeverity) (source details : String)
    (additionalMetadata : Option (List (String × BagValue)) := none) : SysState :=
  let metadata := readKeyMetadataT s
  match lookupKM metadata keyName with
  | none => s
  | some km =>
    let events := km.auditTrail.auditEvents ++
      [{ timestamp := now, eventType := eventType, severity := severity, source := source,
         details := details, metadata := additionalMetadata }]
    let events := if 100 < events.length then events.drop (events.length - 100) else events
    let km1 := { km with auditTrail := { km.auditTrail with auditEvents := events } }
    match writeKeyMetadataT s (setKM metadata keyName km1) with
    | .ok s1 => s1
    | .error _ => s

/-- `updateStatusIfChanged` (the typed model always has `statusTracking`,
so the missing-sub-record branch is dead). -/
def updateStatusIfChanged (now : Int) (km : KeyMetadata) (newStatus : KeyStatus) : KeyMetadata :=
  if km.statusTracking.currentStatus ≠ newStatus then
    { km with statusTracking := { currentStatus := newStatus, lastStatusChange := now } }
  else km

/-- `trimHealthCheckHistoryForMonitoring` (cap 50, drop oldest). -/
def trimHealthCheckHistoryForMonitoring (km : KeyMetadata) : KeyMetadata :=
  let history := km.auditTrail.healthCheckHistory
  if 50 < history.length then
    { km with auditTrail :=
        { km.auditTrail with healthCheckHistory := history.drop (history.length - 50) } }
  else km

/-- `recordHealthCheck` (the monitoring-path health check). -/
def recordHealthCheck (now : Int) (s : SysState) (keyName : String)
    (ageInDays daysUntilExpiry : Int) (status : KeyStatus) (checkSource : CheckSource)
    (recommendations : Option (List String)) : SysState :=
  let metadata := readKeyMetadataT s
  match lookupKM metadata keyName with
  | none => s
  | some km =>
    let entry : HealthCheckEvent :=
      { timestamp := now, ageInDays := ageInDays, daysUntilExpiry := daysUntilExpiry,
        status := status, checkSource := checkSource, recommendations := recommendations }
    let km1 := { km with auditTrail :=
      { km.auditTrail with
          healthCheckHistory := km.auditTrail.healthCheckHistory ++ [entry],
          lastHealthCheck := some now } }
    let km2 := updateStatusIfChanged now km1 status
    let km3 := trimHealthCheckHistoryForMonitoring km2
    match writeKeyMetadataT s (setKM metadata keyName km3) with
    | .ok s1 => s1
    | .error _ => s

/-- `recordRotationAuditEvents`: the audit side effects of a status check. -/
def recordRotationAuditEvents (now : Int) (s : SysState) (keyName : String)
    (status : KeyRotationStatus) : SysState :=
  if status.needsRotation then
    recordAuditEvent now s keyName .expired .critical "checkKeyRotationStatus"
      ("Key has expired and requires immediate rotation (" ++
        toString status.ageInDays ++ " days old)")
  else if status.needsWarning then
    recordAuditEvent now s keyName .warning_issued .warning "checkKeyRotationStatus"
      ("Key will expire in " ++ toString status.daysUntilRotation ++ " days")
  else s

def processHealthCheckAndAudit (now : Int) (s : SysState) (keyName : String)
    (status : KeyRotationStatus) (checkSource : CheckSource) : SysState :=
  let hr := determineHealthStatusAndRecommendations status
  let s1 := recordHealthCheck now s keyName status.ageInDays status.daysUntilRotation
    hr.1 checkSource (some hr.2)
  recordRotationAuditEvents now s1 keyName status

/-- `checkKeyRotationStatus`.  The body re-throws caught errors, but every
step of the model is total, so the result is always `.ok`; the `Except`
return type preserves the TypeScript signature shape. -/
def checkKeyRotationStatusT (mgrCfg : KeyRotationConfig) (now : Int) (s : SysState)
    (keyName : String) (checkSource : CheckSource) :
    Except String (KeyRotationStatus × SysState) :=
  match lookupKM (readKeyMetadataT s) keyName with
  | none => .ok (createDefaultRotationStatus mgrCfg, s)
  | some km =>
    let ageInDays := calculateKeyAge now km
    let validatedConfig := getValidatedRotationConfig mgrCfg km
    let rotationStatus := calculateRotationStatus mgrCfg ageInDays validatedConfig
    let s1 := processHealthCheckAndAudit now s keyName rotationStatus checkSource
    .ok (rotationStatus, s1)

/-! ## KeyLifecycleManager — key info, audit trail, usage tracking -/

structure KeyInfo where
  keyExists : Bool
  metadata : Option KeyMetadata := none
  rotationStatus : Option KeyRotationStatus := none

/-- `getKeyInfo` (the invalid-config probe only logs, so it has no model
effect; the status check's side effects thread through the state). -/
def getKeyInfoT (mgrCfg : KeyRotationConfig) (now : Int) (s : SysState) (keyName : String) :
    Except String (KeyInfo × SysState) :=
  match lookupKM (readKeyMetadataT s) keyName with
  | none => .ok ({ keyExists := false }, s)
  | some km =>
    match checkKeyRotationStatusT mgrCfg now s keyName .api with
    | .error e => .error e
    | .ok (st, s1) =>
      .ok ({ keyExists := true, metadata := some km, rotationStatus := some st }, s1)

def convertKeyStatusToSystemHealth : KeyStatus → SystemHealth
  | .critical | .expired => .critical
  | .warning => .warning
  | .healthy => .healthy

structure KeyAuditSummary where
  totalRotations : Int
  lastRotation : Option Int := none
  lastHealthCheck : Option Int := none
  lastAccess : Option Int := none
  currentStatus : SystemHealth
  totalAuditEvents : Int
  expiredKeys : Int

structure ComprehensiveKeyInfo where
  keyExists : Bool
  metadata : Option KeyMetadata := none
  rotationStatus : Option KeyRotationStatus := none
  auditSummary : Option KeyAuditSummary := none

/-- `getComprehensiveKeyInfo`.  Note that the returned `metadata` is the
snapshot read before the status check's own writes. -/
def getComprehensiveKeyInfoT (mgrCfg : KeyRotationConfig) (now : Int) (s : SysState)
    (keyName : String) : Except String (ComprehensiveKeyInfo × SysState) :=
  match lookupKM (readKeyMetadataT s) keyName with
  | none => .ok ({ keyExists := false }, s)
  | some km =>
    match checkKeyRotationStatusT mgrCfg now s keyName .api with
    | .error e => .error e
    | .ok (st, s1) =>
      let auditSummary : KeyAuditSummary :=
        { totalRotations := km.rotationCount,
          lastRotation := km.lastRotatedAt,
          lastHealthCheck := km.auditTrail.lastHealthCheck,
          lastAccess := km.usageTracking.lastAccessedAt,
          currentStatus := convertKeyStatusToSystemHealth km.statusTracking.currentStatus,
          totalAuditEvents := km.auditTrail.auditEvents.length,
          expiredKeys := 0 }
      .ok ({ keyExists := true, metadata := some km, rotationStatus := some st,
             auditSummary := some auditSummary }, s1)

/-- Set-insertion used wherever the source deduplicates via `new Set` or an
`includes` check (JS sets preserve insertion order). -/
def addUnique (l : List String) (x : String) : List String :=
  if l.contains x then l else l ++ [x]

/-- `updateUsageTracking`: merge environments and (non-null) variable names
into the existing usage tracking, refresh `lastAccessedAt`. -/
def updateUsageTracking (now : Int) (decryptedDataMap : List (String × List (String × String)))
    (existingUsageTracking : Option UsageTracking) : UsageTracking :=
  let envs0 := ((existingUsageTracking.map (·.environmentsUsedIn)).getD []).foldl addUnique []
  let vars0 := ((existingUsageTracking.map (·.dependentVariables)).getD []).foldl addUnique []
  let merged := decryptedDataMap.foldl
    (fun acc entry =>
      (addUnique acc.1 entry.1, entry.2.foldl (fun dv kv => addUnique dv kv.1) acc.2))
    (envs0, vars0)
  { environmentsUsedIn := merged.1, dependentVariables := merged.2, lastAccessedAt := some now }

/-- `getOldKeyHash`: only on failed rotations, hash whatever key value the
secret file currently holds. -/
def getOldKeyHash (s : SysState) (keyFilePath keyName : String) (success : Bool) :
    Option String :=
  if success then none
  else
    match getKeyValue s keyFilePath keyName with
    | some v => if v = "" then none else some (hashKey v)   -- `currentKeyValue ?` is falsy for ""
    | none => none

/-- `createAuditEntry`: the RotationEvent recorded by `updateAuditTrail`. -/
def createAuditEntry (startTime : Int) (reason : RotationReason) (oldKeyHash : Option String)
    (newKeyHash : String) (rotationResult : RotationResult)
    (processedVariableNames : Option (List String)) (success : Bool) (shouldRotateKey : Bool)
    (error : Option String) : RotationEvent :=
  { timestamp := startTime, reason := reason, oldKeyHash := oldKeyHash,
    newKeyHash := some newKeyHash,
    affectedEnvironments := if success then rotationResult.affectedFiles else [],
    affectedVariables := processedVariableNames.getD [],
    success := success, overrideMode := some shouldRotateKey, errorDetails := error }

/-- Stable insertion into a `le`-sorted list (after all `le`-smaller-or-equal
elements), modelling JS's stable `Array.prototype.sort`. -/
def stableInsert (le : α → α → Bool) (x : α) : List α → List α
  | [] => [x]
  | y :: ys => if le y x then y :: stableInsert le x ys else x :: y :: ys

/-- Stable sort by the `(a, b) => a.timestamp - b.timestamp` comparator used
in `findInitialAuditEntry` (which sorts `rotationHistory` in place). -/
def sortByTimestamp (l : List RotationEvent) : List RotationEvent :=
  l.foldl (fun acc x => stableInsert (fun a b => a.timestamp ≤ b.timestamp) x acc) []

/-- Whether a rotation event is the back-fillable "bootstrap" entry: both
affected lists empty. -/
def isInitialEntry (e : RotationEvent) : Bool :=
  e.affectedEnvironments.isEmpty && e.affectedVariables.isEmpty

/-- Mutating the entry found by `findInitialAuditEntry` inside the (sorted)
history: replace the first bootstrap entry's affected lists. -/
def backfillInitialEntry (files vars : List String) : List RotationEvent → List RotationEvent
  | [] => []
  | e :: rest =>
    if isInitialEntry e then
      { e with affectedEnvironments := files, affectedVariables := vars } :: rest
    else e :: backfillInitialEntry files vars rest

/-- `updateInitialAuditEntry`.  When `processedVariableNames` is nonempty
this sorts `rotationHistory` (an in-place `.sort` inside
`findInitialAuditEntry`) and back-fills the first bootstrap entry. -/
def updateInitialAuditEntry (km : KeyMetadata) (rotationResult : RotationResult)
    (processedVariableNames : Option (List String)) : KeyMetadata :=
  match processedVariableNames with
  | none => km
  | some [] => km
  | some pv =>
    let sorted := sortByTimestamp km.auditTrail.rotationHistory
    { km with auditTrail :=
        { km.auditTrail with
            rotationHistory := backfillInitialEntry rotationResult.affectedFiles pv sorted } }

/-- `updateUsageTrackingForRotation`: push new environments (an `includes`
check per file), rebuild dependent variables through a `Set`, refresh
`lastAccessedAt`. -/
def updateUsageTrackingForRotation (now : Int) (km : KeyMetadata)
    (rotationResult : RotationResult) (processedVariableNames : Option (List String)) :
    KeyMetadata :=
  let envs := rotationResult.affectedFiles.foldl
    (fun l f => if l.contains f then l else l ++ [f]) km.usageTracking.environmentsUsedIn
  let vars :=
    match processedVariableNames with
    | none => km.usageTracking.dependentVariables
    | some [] => km.usageTracking.dependentVariables
    | some pv => pv.foldl addUnique (km.usageTracking.dependentVariables.foldl addUnique [])
  { km with usageTracking :=
      { environmentsUsedIn := envs, dependentVariables := vars, lastAccessedAt := some now } }

def updateSuccessfulRotationMetadata (now : Int) (km : KeyMetadata)
    (rotationResult : RotationResult) (processedVariableNames : Option (List String)) :
    KeyMetadata :=
  updateInitialAuditEntry (updateUsageTrackingForRotation now km rotationResult
    processedVariableNames) rotationResult processedVariableNames

def recordSuccessfulRotationAuditEvent (now : Int) (s : SysState) (keyName : String)
    (reason : RotationReason) (rotationResult : RotationResult) (rotationCount : Int)
    (shouldRotateKey : Bool) (processedVariableNames : Option (List String)) : SysState :=
  let bag : List (String × BagValue) :=
    [("reason", .bstr reason.toStr),
     ("affectedEnvironments", .bstrList rotationResult.affectedFiles),
     ("reEncryptedCount", .bnum rotationResult.reEncryptedCount),
     ("rotationCount", .bnum rotationCount),
     ("overrideMode", .bbool shouldRotateKey),
     ("affectedVariables", .bstrList (processedVariableNames.getD []))]
  let variablesList := String.intercalate ", " (processedVariableNames.getD [])
  let message := "Key rotated successfully. Reason: " ++ reason.toStr ++ ". Re-encrypted " ++
    toString rotationResult.reEncryptedCount ++ " variables: " ++ variablesList ++
    ". Override mode: " ++ toString shouldRotateKey
  recordAuditEvent now s keyName .rotated .info "rotateKeyWithAudit" message (some bag)

/-- `updateAuditTrail`.  The whole body is wrapped in `try`/`catch` that only
logs, so audit failures never escalate: on a failed write the state is
returned unchanged. -/
def updateAuditTrailT (now : Int) (s : SysState) (keyName keyFilePath : String)
    (reason : RotationReason) (startTime : Int) (newKeyValue : String)
    (rotationResult : RotationResult) (shouldRotateKey success : Bool)
    (error : Option String) (processedVariableNames : Option (List String)) : SysState :=
  let metadata := readKeyMetadataT s
  match lookupKM metadata keyName with
  | none => s
  | some km =>
    let oldKeyHash := getOldKeyHash s keyFilePath keyName success
    let newKeyHash := hashKey newKeyValue
    let auditEntry := createAuditEntry startTime reason oldKeyHash newKeyHash rotationResult
      processedVariableNames success shouldRotateKey error
    let km1 := { km with auditTrail :=
      { km.auditTrail with rotationHistory := km.auditTrail.rotationHistory ++ [auditEntry] } }
    let km2 :=
      if success && 0 < rotationResult.affectedFiles.length then
        updateSuccessfulRotationMetadata now km1 rotationResult processedVariableNames
      else km1
    match updateSingleKeyMetadataT s keyName km2 with
    | .error _ => s
    | .ok s1 =>
      if success then
        recordSuccessfulRotationAuditEvent now s1 keyName reason rotationResult
          km2.rotationCount shouldRotateKey processedVariableNames
      else s1

/-- `recordKeyAccess` (catches everything; on write failure the audit event
is skipped too and the state is unchanged). -/
def recordKeyAccess (now : Int) (s : SysState) (keyName accessSource : String) : SysState :=
  let metadata := readKeyMetadataT s
  match lookupKM metadata keyName with
  | none => s
  | some km =>
    let km1 := { km with usageTracking :=
      { km.usageTracking with lastAccessedAt := some now } }
    match writeKeyMetadataT s (setKM metadata keyName km1) with
    | .error _ => s
    | .ok s1 =>
      recordAuditEvent now s1 keyName .accessed .info accessSource
        ("Key accessed from " ++ accessSource)

/-! ## KeyLifecycleManager — rotation-triggered health checks -/

/-- `determineCheckSource` (the `reason` argument is a plain string). -/
def determineCheckSource (reason : String) : CheckSource :=
  if reason = "manual" then .manual
  else if reason = "scheduled" then .scheduled
  else if reason = "health_check" then .api
  else .api

/-- `determineHealthStatus`: `critical` on failure; on an `expired`-reason
check, `healthy`/`expired` by success; otherwise threshold arithmetic on the
ceil-age and the floor-days-since-rotation. -/
def determineHealthStatus (now : Int) (km : KeyMetadata) (success : Bool) (reason : String) :
    KeyStatus :=
  if !success then .critical
  else if reason = "expired" then (if success then .healthy else .expired)
  else
    let keyAge := calculateKeyAge now km
    let daysSinceLastRotation := calculateDaysSinceLastRotation now km
    let maxAge := km.rotationConfig.maxAgeInDays
    let warningThreshold := km.rotationConfig.warningThresholdInDays
    if maxAge ≤ keyAge then .expired
    else if maxAge - warningThreshold ≤ keyAge then .warning
    else if maxAge - warningThreshold ≤ daysSinceLastRotation then .warning
    else .healthy

def generateRecommendations (healthStatus : KeyStatus) (_reason : String)
    (rotationResult : Option RotationResult) : Option (List String) :=
  let recommendations :=
    (match healthStatus with
     | .warning => ["Consider rotating this key soon"]
     | .critical => ["Key rotation is urgently needed"]
     | .expired => ["Key has expired and should be rotated immediately"]
     | .healthy => []) ++
    (match rotationResult with
     | some rr => if !rr.success then ["Previous rotation failed - investigate and retry"] else []
     | none => [])
  if recommendations.isEmpty then none else some recommendations

def createHealthCheckEntry (now : Int) (km : KeyMetadata) (success : Bool) (reason : String)
    (rotationResult : Option RotationResult) : HealthCheckEvent :=
  let healthStatus := determineHealthStatus now km success reason
  { timestamp := now,
    ageInDays := calculateKeyAge now km,
    daysUntilExpiry := calculateDaysUntilExpiry now km,
    status := healthStatus,
    checkSource := determineCheckSource reason,
    recommendations := generateRecommendations healthStatus reason rotationResult }

/-- `trimHealthCheckHistoryForRotation` (cap 25, drop oldest). -/
def trimHealthCheckHistoryForRotation (km : KeyMetadata) : KeyMetadata :=
  let history := km.auditTrail.healthCheckHistory
  if 25 < history.length then
    { km with auditTrail :=
        { km.auditTrail with healthCheckHistory := history.drop (history.length - 25) } }
  else km

/-- `updateKeyStatus` — the rotation-path status update: unconditionally
overwrites both `currentStatus` and `lastStatusChange`. -/
def updateKeyStatus (now : Int) (km : KeyMetadata) (healthStatus : KeyStatus) : KeyMetadata :=
  { km with statusTracking :=
      { currentStatus := healthStatus, lastStatusChange := now } }

def determineSeverityFromHealthStatus : KeyStatus → EventSeverity
  | .critical => .critical
  | .warning => .warning
  | _ => .info

def generateHealthCheckDetails (success : Bool) (reason : String) (healthStatus : KeyStatus)
    (rotationResult : Option RotationResult) : String :=
  if !success then
    "Key operation failed during " ++ reason ++ " operation. Status: " ++ healthStatus.toStr
  else
    let baseMessage := "Key operation completed successfully. Status: " ++
      healthStatus.toStr ++ "."
    let rotationDetails :=
      match rotationResult with
      | some rr => " Re-encrypted " ++ toString rr.reEncryptedCount ++ " variables across " ++
          toString rr.affectedFiles.length ++ " files."
      | none => ""
    let statusMessage :=
      match healthStatus with
      | .healthy => "Key is within safe rotation period."
      | .warning => "Key is approaching rotation threshold - consider rotating soon."
      | .critical => "Key operation failed or is in critical state."
      | .expired => "Key has exceeded maximum age and should be rotated immediately."
    baseMessage ++ rotationDetails ++ " " ++ statusMessage

def createRotationAuditEvent (now : Int) (km : KeyMetadata) (success : Bool) (reason : String)
    (healthStatus : KeyStatus) (rotationResult : RotationResult) : AuditEvent :=
  { timestamp := now,
    eventType := .health_check,
    severity := determineSeverityFromHealthStatus healthStatus,
    source := "health-check-service",
    details := generateHealthCheckDetails success reason healthStatus (some rotationResult),
    metadata := some
      [("reason", .bstr reason), ("success", .bbool success),
       ("healthStatus", .bstr healthStatus.toStr),
       ("keyAge", .bnum (calculateKeyAge now km)),
       ("daysSinceLastRotation", .bnum (calculateDaysSinceLastRotation now km)),
       ("reEncryptedCount", .bnum rotationResult.reEncryptedCount),
       ("affectedFiles", .bstrList rotationResult.affectedFiles)] }

/-- `addHealthCheckEntry`: mutates (and returns) the passed metadata object;
it performs no persistence itself — callers that want the changes stored
must write them.  Its `keyName` argument is only used for logging. -/
def addHealthCheckEntry (now : Int) (_keyName : String) (km : KeyMetadata) (success : Bool)
    (reason : String) (rotationResult : Option RotationResult) : KeyMetadata :=
  let healthCheckEntry := createHealthCheckEntry now km success reason rotationResult
  let km1 := { km with auditTrail :=
    { km.auditTrail with
        healthCheckHistory := km.auditTrail.healthCheckHistory ++ [healthCheckEntry] } }
  let km2 := trimHealthCheckHistoryForRotation km1
  let km3 := updateKeyStatus now km2 healthCheckEntry.status
  match rotationResult with
  | some rr =>
    { km3 with auditTrail :=
        { km3.auditTrail with auditEvents := km3.auditTrail.auditEvents ++
            [createRotationAuditEvent now km3 success reason healthCheckEntry.status rr] } }
  | none => km3

/-! ## KeyLifecycleManager — system-wide checks and audit -/

/-- `performRotationChecks`: a sequential status check per key name. -/
def performRotationChecks (mgrCfg : KeyRotationConfig) (now : Int) :
    SysState → List String → Except String (List (String × KeyRotationStatus) × SysState)
  | s, [] => .ok ([], s)
  | s, keyName :: rest =>
    match checkKeyRotationStatusT mgrCfg now s keyName .scheduled with
    | .error e => .error e
    | .ok (status, s1) =>
      match performRotationChecks mgrCfg now s1 rest with
      | .error e => .error e
      | .ok (checks, s2) => .ok ((keyName, status) :: checks, s2)

/-- `categorizeKeys`: rotation takes precedence over warning. -/
def categorizeKeys (checks : List (String × KeyRotationStatus)) : List String × List String :=
  checks.foldr
    (fun c acc =>
      if c.2.needsRotation then (c.1 :: acc.1, acc.2)
      else if c.2.needsWarning then (acc.1, c.1 :: acc.2)
      else acc)
    ([], [])

/-- `checkAllKeysForRotation`. -/
def checkAllKeysForRotation (mgrCfg : KeyRotationConfig) (now : Int) (s : SysState) :
    Except String ((List String × List String) × SysState) :=
  let metadata := readKeyMetadataT s
  match performRotationChecks mgrCfg now s (metadata.map (·.1)) with
  | .error e => .error e
  | .ok (checks, s1) => .ok (categorizeKeys checks, s1)

def isKeyExpired (mgrCfg : KeyRotationConfig) (now : Int) (metadata : MetadataStore)
    (keyName : String) : Bool :=
  match lookupKM metadata keyName with
  | some km => km.rotationConfig.maxAgeInDays ≤ calculateKeyAge now km
  | none => mgrCfg.maxAgeInDays ≤ 0   -- unreachable: callers pass stored key names

/-- `calculateKeyMetrics` (key ages are non-negative, so folding `max` from 0
matches `Math.max(...ages)`; `min` folds from the head). -/
def calculateKeyMetrics (now : Int) (metadata : MetadataStore) (allKeys : List String) :
    KeyMetrics :=
  if allKeys.isEmpty then { averageKeyAge := 0, oldestKeyAge := 0, newestKeyAge := 0 }
  else
    let keyAges := allKeys.map fun k =>
      match lookupKM metadata k with
      | some km => calculateKeyAge now km
      | none => 0
    { averageKeyAge := ((keyAges.foldl (· + ·) 0 : Int) : Rat) / (keyAges.length : Rat),
      oldestKeyAge := keyAges.foldl max 0,
      newestKeyAge := keyAges.foldl min (keyAges.headD 0) }

def determineSystemHealth (criticalKeys warningKeys : Nat) : SystemHealth :=
  if 0 < criticalKeys then .critical
  else if 0 < warningKeys then .warning
  else .healthy

def shouldReduceRotationInterval (mgrCfg : KeyRotationConfig) (averageKeyAge : Rat) : Bool :=
  (mgrCfg.maxAgeInDays : Rat) * (4 / 5 : Rat) < averageKeyAge

def generateAuditRecommendations (mgrCfg : KeyRotationConfig) (criticalKeys warningKeys : Nat)
    (averageKeyAge : Rat) : List String :=
  (if 0 < criticalKeys then [toString criticalKeys ++ " key(s) require immediate rotation"]
   else []) ++
  (if 0 < warningKeys then [toString warningKeys ++ " key(s) should be rotated soon"] else []) ++
  (if shouldReduceRotationInterval mgrCfg averageKeyAge then
    ["Consider reducing key rotation intervals"] else [])

def createAuditSummary (totalKeys criticalKeys warningKeys expiredKeysCount : Nat)
    (keyMetrics : KeyMetrics) (systemHealth : SystemHealth) : AuditSummary :=
  { totalKeys := totalKeys,
    healthyKeys := (totalKeys : Int) - criticalKeys - warningKeys - expiredKeysCount,
    warningKeys := warningKeys,
    criticalKeys := criticalKeys,
    expiredKeys := expiredKeysCount,
    averageKeyAge := ((round (keyMetrics.averageKeyAge * 100) : Int) : Rat) / 100,
    oldestKeyAge := keyMetrics.oldestKeyAge,
    newestKeyAge := keyMetrics.newestKeyAge,
    totalAuditEvents := 0,
    totalRotations := 0,
    currentStatus := systemHealth }

structure SystemAuditResult where
  systemHealth : SystemHealth
  keysNeedingRotation : List String
  keysNeedingWarning : List String
  expiredKeys : List String
  auditSummary : AuditSummary
  recommendations : List String

/-- `performComprehensiveAudit`. -/
def performComprehensiveAudit (mgrCfg : KeyRotationConfig) (now : Int) (s : SysState) :
    Except String (SystemAuditResult × SysState) :=
  match checkAllKeysForRotation mgrCfg now s with
  | .error e => .error e
  | .ok ((keysNeedingRotation, keysNeedingWarning), s1) =>
    let metadata := readKeyMetadataT s1
    let allKeys := (metadata.map (·.1)).filter (· ≠ "SYSTEM")
    let expiredKeys := allKeys.filter (isKeyExpired mgrCfg now metadata)
    let keyMetrics := calculateKeyMetrics now metadata allKeys
    let systemHealth := determineSystemHealth keysNeedingRotation.length
      keysNeedingWarning.length
    let recommendations := generateAuditRecommendations mgrCfg keysNeedingRotation.length
      keysNeedingWarning.length keyMetrics.averageKeyAge
    let auditSummary := createAuditSummary allKeys.length keysNeedingRotation.length
      keysNeedingWarning.length expiredKeys.length keyMetrics systemHealth
    .ok ({ systemHealth := systemHealth, keysNeedingRotation := keysNeedingRotation,
           keysNeedingWarning := keysNeedingWarning, expiredKeys := expiredKeys,
           auditSummary := auditSummary, recommendations := recommendations }, s1)

/-! ## KeyLifecycleService — decryption and re-encryption -/

/-- Structural character-list version of `String.startsWith` (the library
function recurses by well-founded measure and is kept out of the model so
that concrete runs evaluate). -/
def charsBegin : List Char → List Char → Bool
  | _, [] => true
  | [], _ :: _ => false
  | c :: cs, d :: ds => c = d && charsBegin cs ds

def strBeginsWith (s pre : String) : Bool := charsBegin s.data pre.data

/-- `isEncryptedValue`: `Boolean(value && value.startsWith(PREFIX))`. -/
def isEncryptedValue (ops : CryptoOps) (value : String) : Bool :=
  !(value = "") && strBeginsWith value ops.encMarker

/-- `validateDecryptionKey`: the key must exist (and be truthy) in the base
env file. -/
def validateDecryptionKey (ops : CryptoOps) (s : SysState) (keyName : String) :
    Except String Unit :=
  match getKeyValue s ops.baseEnvFile keyName with
  | some v =>
    if v = "" then
      .error ("Key '" ++ keyName ++ "' not found in " ++ ops.baseEnvFile ++ " for decryption")
    else .ok ()
  | none =>
    .error ("Key '" ++ keyName ++ "' not found in " ++ ops.baseEnvFile ++ " for decryption")

def validateEncryptionKey (ops : CryptoOps) (s : SysState) (keyName : String) :
    Except String Unit :=
  match getKeyValue s ops.baseEnvFile keyName with
  | some v =>
    if v = "" then
      .error ("Key '" ++ keyName ++ "' not found in " ++ ops.baseEnvFile ++ " for re-encryption")
    else .ok ()
  | none =>
    .error ("Key '" ++ keyName ++ "' not found in " ++ ops.baseEnvFile ++ " for re-encryption")

/-- `loadEnvironmentFile` via `environmentFileParser.readEnvironmentFileAsLines`
(an absent file is a thrown I/O error). -/
def loadEnvironmentFile (s : SysState) (environmentFile : String) :
    Except String (List (String × String)) :=
  match lookupKM s.files environmentFile with
  | some lines => .ok lines
  | none => .error ("Environment file not found: " ++ environmentFile)

/-- `processVariableForDecryption`: decrypt recognized-encrypted values,
pass plain values through in override mode, skip (with a warning) any
variable whose decryption fails. -/
def processVariableForDecryption (ops : CryptoOps) (value keyName : String)
    (shouldRotateKey : Bool) : Option String :=
  let isEncrypted := isEncryptedValue ops value
  let shouldProcess := isEncrypted || (shouldRotateKey && !(value = ""))
  if !shouldProcess then none
  else if isEncrypted then
    match ops.decrypt value keyName with
    | .ok plaintext => some plaintext
    | .error _ => none          -- caught: "Skipping variable due to decryption error"
  else if shouldRotateKey then some value
  else none

def processVariablesForDecryption (ops : CryptoOps) (allEnvVariables : List (String × String))
    (keyName : String) (shouldRotateKey : Bool) : List (String × String) :=
  allEnvVariables.foldr
    (fun kv acc =>
      match processVariableForDecryption ops kv.2 keyName shouldRotateKey with
      | some v => (kv.1, v) :: acc
      | none => acc)
    []

def filterValidDecryptedVariables (decryptedVariables : List (String × String)) :
    List (String × String) :=
  decryptedVariables.filter fun kv => !(jsTrim kv.2 = "")

/-- `decryptEnvironmentVariables` (read-only on the state). -/
def decryptEnvironmentVariables (ops : CryptoOps) (s : SysState)
    (keyName environmentFile : String) (shouldRotateKey : Bool) :
    Except String (List (String × String)) :=
  match validateDecryptionKey ops s keyName with
  | .error e => .error e
  | .ok _ =>
    match loadEnvironmentFile s environmentFile with
    | .error e => .error e
    | .ok envFileLines =>
      let allEnvVariables := envFileLines
      let decryptedVariables :=
        processVariablesForDecryption ops allEnvVariables keyName shouldRotateKey
      .ok (filterValidDecryptedVariables decryptedVariables)

/-- `reEncryptSingleVariable`: an encryption failure is re-thrown, aborting
the whole rotation. -/
def reEncryptSingleVariable (ops : CryptoOps) (envFileLines : List (String × String))
    (variableKey decryptedValue keyName : String) : Except String (List (String × String)) :=
  match ops.encrypt decryptedValue keyName with
  | .ok newEncryptedValue => .ok (setKM envFileLines variableKey newEncryptedValue)
  | .error e => .error e

def reEncryptVariables (ops : CryptoOps) (keyName : String) :
    List (String × String) → List (String × String) → Except String (List (String × String))
  | envFileLines, [] => .ok envFileLines
  | envFileLines, (k, v) :: rest =>
    match reEncryptSingleVariable ops envFileLines k v keyName with
    | .error e => .error e
    | .ok updated => reEncryptVariables ops keyName updated rest

def saveUpdatedEnvironmentFile (s : SysState) (environmentFile : String)
    (envFileLines : List (String × String)) : SysState :=
  { s with files := setKM s.files environmentFile envFileLines }

/-- `reEncryptEnvironmentVariables`: on an empty batch returns 0 without
touching the file; the file is rewritten only after the whole batch
encrypts, so a mid-batch failure leaves the environment file unchanged. -/
def reEncryptEnvironmentVariables (ops : CryptoOps) (s : SysState)
    (environmentFile : String) (decryptedVariables : List (String × String))
    (keyName : String) : Except String (Nat × SysState) :=
  if decryptedVariables.isEmpty then .ok (0, s)
  else
    match validateEncryptionKey ops s keyName with
    | .error e => .error e
    | .ok _ =>
      match loadEnvironmentFile s environmentFile with
      | .error e => .error e
      | .ok envFileLines =>
        match reEncryptVariables ops keyName envFileLines decryptedVariables with
        | .error e => .error e
        | .ok updatedLines =>
          .ok (decryptedVariables.length, saveUpdatedEnvironmentFile s environmentFile updatedLines)

/-! ## KeyLifecycleService — rotation steps -/

/-- Step 1: `validateAndGetKeyInfo` (fails fast when the key has no
metadata record). -/
def validateAndGetKeyInfo (mgrCfg : KeyRotationConfig) (now : Int) (s : SysState)
    (keyName : String) : Except String (KeyMetadata × SysState) :=
  match getComprehensiveKeyInfoT mgrCfg now s keyName with
  | .error e => .error e
  | .ok (keyInfo, s1) =>
    match keyInfo.metadata with
    | some km =>
      if keyInfo.keyExists then .ok (km, s1)
      else .error ("Key '" ++ keyName ++ "' not found in metadata")
    | none => .error ("Key '" ++ keyName ++ "' not found in metadata")

/-- Step 3: `recordRotationStartAudit`. -/
def recordRotationStartAudit (now : Int) (s : SysState) (keyName environmentFile : String)
    (reason : RotationReason) (customMaxAge : Option Int) (shouldRotateKey : Bool) : SysState :=
  recordAuditEvent now s keyName .rotated .info "rotateKeyWithAudit"
    ("Starting key rotation for environment " ++ environmentFile ++ " (reason: " ++
      reason.toStr ++ ")")
    (some ([("reason", .bstr reason.toStr)] ++
      (match customMaxAge with
       | some c => [("customMaxAge", BagValue.bnum c)]
       | none => []) ++
      [("shouldRotateKey", .bbool shouldRotateKey), ("environmentFile", .bstr environmentFile)]))

/-- Step 4: `getAndValidateOldKey`. -/
def getAndValidateOldKey (s : SysState) (keyFilePath keyName : String) : Except String String :=
  match getKeyValue s keyFilePath keyName with
  | some v =>
    if v = "" then .error ("Key '" ++ keyName ++ "' not found in " ++ keyFilePath)
    else .ok v
  | none => .error ("Key '" ++ keyName ++ "' not found in " ++ keyFilePath)

/-- Steps 6–7: `updateAndVerifyKey` — overwrite, re-read, compare.  The
write has happened even when verification fails, so the (possibly mutated)
state is returned alongside the outcome. -/
def updateAndVerifyKey (s : SysState) (keyFilePath keyName newKeyValue : String) :
    Except String Unit × SysState :=
  let s1 := updateKeyValue s keyFilePath keyName newKeyValue
  match getKeyValue s1 keyFilePath keyName with
  | some v =>
    if v = newKeyValue then (.ok (), s1)
    else (.error ("Failed to update key '" ++ keyName ++ "' - key value unchanged"), s1)
  | none => (.error ("Failed to update key '" ++ keyName ++ "' - key value unchanged"), s1)

/-- `createValidatedRotationConfig` (`customMaxAge || default`, then the
throwing validation). -/
def createValidatedRotationConfig (mgrCfg : KeyRotationConfig) (customMaxAge : Option Int) :
    Except String KeyRotationConfig :=
  let maxAge :=
    match customMaxAge with
    | some c => if c = 0 then mgrCfg.maxAgeInDays else c
    | none => mgrCfg.maxAgeInDays
  validateRotationConfigT
    { maxAgeInDays := maxAge, warningThresholdInDays := mgrCfg.warningThresholdInDays }

/-- Step 9: `updateKeyMetadataAfterRotation` — the only place the persisted
`rotationCount` is incremented and `lastRotatedAt` set. -/
def updateKeyMetadataAfterRotation (now : Int) (s : SysState) (keyName : String)
    (existingMetadata : KeyMetadata) (environmentFile : String)
    (decryptedData : List (String × String)) (validatedConfig : KeyRotationConfig) :
    Except String (KeyMetadata × SysState) :=
  let singleFileMap := if decryptedData.isEmpty then [] else [(environmentFile, decryptedData)]
  let updatedUsageTracking :=
    updateUsageTracking now singleFileMap (some existingMetadata.usageTracking)
  let updatedMetadata : KeyMetadata :=
    { keyName := keyName,
      createdAt := existingMetadata.createdAt,
      lastRotatedAt := some now,
      rotationCount := existingMetadata.rotationCount + 1,
      rotationConfig := validatedConfig,
      auditTrail := existingMetadata.auditTrail,
      usageTracking := updatedUsageTracking,
      statusTracking := { existingMetadata.statusTracking with
        currentStatus := .healthy, lastStatusChange := now } }
  match updateSingleKeyMetadataT s keyName updatedMetadata with
  | .error e => .error e
  | .ok s1 => .ok (updatedMetadata, s1)

/-- Step 10: `recordPostRotationActivities` — `addHealthCheckEntry` mutates
only the in-memory `updatedMetadata` object, which nothing persists
afterwards, so its result is discarded. -/
def recordPostRotationActivities (now : Int) (s : SysState) (keyName : String)
    (updatedMetadata : KeyMetadata) (reason : RotationReason)
    (rotationResult : RotationResult) (environmentFile : String) : SysState :=
  let s1 := recordKeyAccess now s keyName "rotation-service"
  let _ := addHealthCheckEntry now keyName updatedMetadata true reason.toStr
    (some { success := true, reEncryptedCount := rotationResult.reEncryptedCount,
            affectedFiles := [environmentFile] })
  s1

/-- Steps 12–13: `recordSuccessAudit`. -/
def recordSuccessAudit (now : Int) (s : SysState) (keyName keyFilePath : String)
    (reason : RotationReason) (startTime : Int) (newKeyValue : String)
    (rotationResult : RotationResult) (environmentFile : String) (shouldRotateKey : Bool)
    (processedVariableNames : List String) (updatedMetadata : KeyMetadata)
    (validatedConfig : KeyRotationConfig) : SysState :=
  let s1 := updateAuditTrailT now s keyName keyFilePath reason startTime newKeyValue
    { success := true, reEncryptedCount := rotationResult.reEncryptedCount,
      affectedFiles := [environmentFile] }
    shouldRotateKey true none (some processedVariableNames)
  recordAuditEvent now s1 keyName .rotated .info "rotateKeyWithAudit"
    ("Key rotation completed successfully for environment " ++ environmentFile)
    (some [("reason", .bstr reason.toStr),
           ("rotationCount", .bnum updatedMetadata.rotationCount),
           ("reEncryptedCount", .bnum rotationResult.reEncryptedCount),
           ("environmentFile", .bstr environmentFile),
           ("durationMs", .bnum (now - startTime)),
           ("newMaxAge", .bnum validatedConfig.maxAgeInDays),
           ("processedVariables", .bstrList processedVariableNames)])

/-- Step 14: `performPostRotationHealthCheck` (logging plus one status
check). -/
def performPostRotationHealthCheck (mgrCfg : KeyRotationConfig) (now : Int) (s : SysState)
    (keyName : String) : Except String SysState :=
  match checkKeyRotationStatusT mgrCfg now s keyName .manual with
  | .error e => .error e
  | .ok (_, s1) => .ok s1

/-- `handleRotationFailure`: best-effort failure health check, a `critical`
audit event, and a failed RotationEvent with the error text. -/
def handleRotationFailure (mgrCfg : KeyRotationConfig) (now : Int) (s : SysState)
    (error : String) (keyName : String) (reason : RotationReason)
    (rotationResult : RotationResult) (environmentFile keyFilePath : String)
    (startTime : Int) (newKeyValue : String) (shouldRotateKey : Bool)
    (processedVariableNames : List String) : SysState :=
  let rr := { rotationResult with success := false }
  let mdAndState :=
    match getKeyInfoT mgrCfg now s keyName with
    | .ok (keyInfo, s') => (keyInfo.metadata, s')
    | .error _ => (none, s)      -- caught: "Could not retrieve metadata …"
  let currentMetadata := mdAndState.1
  let s1 := mdAndState.2
  let _ :=
    match currentMetadata with
    | some km => some (addHealthCheckEntry now keyName km false reason.toStr
        (some { success := false, reEncryptedCount := rr.reEncryptedCount,
                affectedFiles := [environmentFile] }))
    | none => none
  let s2 := recordAuditEvent now s1 keyName .rotated .critical "rotateKeyWithAudit"
    ("Key rotation failed for environment " ++ environmentFile ++ ": " ++ error)
    (some [("reason", .bstr reason.toStr), ("error", .bstr error),
           ("reEncryptedCount", .bnum rr.reEncryptedCount),
           ("environmentFile", .bstr environmentFile),
           ("durationMs", .bnum (now - startTime)),
           ("processedVariables", .bstrList processedVariableNames)])
  updateAuditTrailT now s2 keyName keyFilePath reason startTime newKeyValue
    { success := false, reEncryptedCount := rr.reEncryptedCount,
      affectedFiles := [environmentFile] }
    shouldRotateKey false (some error) (some processedVariableNames)

/-- Step 15 (`finally`): cache clear, duration logging, and — for
`expired`/`compromised` rotations — a best-effort full system audit. -/
def performCleanupAndFinalAudit (mgrCfg : KeyRotationConfig) (now : Int) (s : SysState)
    (reason : RotationReason) : SysState :=
  if reason = .expired || reason = .compromised then
    match performComprehensiveAudit mgrCfg now s with
    | .ok (_, s1) => s1
    | .error _ => s              -- caught: "Post-rotation system audit failed"
  else s

/-! ## KeyLifecycleService.rotateKeyWithAudit

The try body is a cascade whose failure value carries the thrown error
together with the current values of the mutable `rotationResult` and
`processedVariableNames` locals and the state at the point of failure —
exactly what the `catch` handler observes.  The `catch` runs
`handleRotationFailure` then re-throws; `finally` runs
`performCleanupAndFinalAudit` on both paths. -/

def rotateKeyWithAuditBody (ops : CryptoOps) (mgrCfg : KeyRotationConfig)
    (now startTime : Int) (s0 : SysState)
    (keyFilePath keyName newKeyValue environmentFile : String) (reason : RotationReason)
    (customMaxAge : Option Int) (shouldRotateKey : Bool) :
    Except (String × RotationResult × List String × SysState)
      (RotationResult × List String × SysState) :=
  let rotationResult0 : RotationResult :=
    { success := false, reEncryptedCount := 0, affectedFiles := [environmentFile] }
  -- Steps 1–2: validate key and (log-only) rotation config
  match validateAndGetKeyInfo mgrCfg now s0 keyName with
  | .error e => .error (e, rotationResult0, [], s0)
  | .ok (existingMetadata, s1) =>
    -- Step 3: rotation-start audit event
    let s2 := recordRotationStartAudit now s1 keyName environmentFile reason customMaxAge
      shouldRotateKey
    -- Step 4: current key value must exist
    match getAndValidateOldKey s2 keyFilePath keyName with
    | .error e => .error (e, rotationResult0, [], s2)
    | .ok _oldKeyValue =>
      -- Step 5: decrypt with the old key (per-variable failures skipped)
      match decryptEnvironmentVariables ops s2 keyName environmentFile shouldRotateKey with
      | .error e => .error (e, rotationResult0, [], s2)
      | .ok decryptedData =>
        let processedVariableNames := decryptedData.map (·.1)
        -- Steps 6–7: write and verify the new key value
        let uv := updateAndVerifyKey s2 keyFilePath keyName newKeyValue
        match uv.1 with
        | .error e => .error (e, rotationResult0, processedVariableNames, uv.2)
        | .ok _ =>
          let s3 := uv.2
          -- Step 8: re-encrypt with the new key
          match reEncryptEnvironmentVariables ops s3 environmentFile decryptedData keyName with
          | .error e => .error (e, rotationResult0, processedVariableNames, s3)
          | .ok (reEncryptedCount, s4) =>
            let rotationResult1 : RotationResult :=
              { success := true, reEncryptedCount := reEncryptedCount,
                affectedFiles := [environmentFile] }
            -- Step 9: metadata update (rotationCount + 1, lastRotatedAt = now)
            match createValidatedRotationConfig mgrCfg customMaxAge with
            | .error e => .error (e, rotationResult1, processedVariableNames, s4)
            | .ok validatedConfig =>
              match updateKeyMetadataAfterRotation now s4 keyName existingMetadata
                  environmentFile decryptedData validatedConfig with
              | .error e => .error (e, rotationResult1, processedVariableNames, s4)
              | .ok (updatedMetadata, s5) =>
                -- Steps 10–13: post-rotation bookkeeping and success audit
                let s6 := recordPostRotationActivities now s5 keyName updatedMetadata reason
                  rotationResult1 environmentFile
                let s7 := recordSuccessAudit now s6 keyName keyFilePath reason startTime
                  newKeyValue rotationResult1 environmentFile shouldRotateKey
                  processedVariableNames updatedMetadata validatedConfig
                -- Step 14: post-rotation health check
                match performPostRotationHealthCheck mgrCfg now s7 keyName with
                | .error e => .error (e, rotationResult1, processedVariableNames, s7)
                | .ok s8 => .ok (rotationResult1, processedVariableNames, s8)

/-- `rotateKeyWithAudit`: try body, `catch` (failure recording + re-throw),
`finally` (cleanup and conditional system audit). -/
def rotateKeyWithAuditT (ops : CryptoOps) (mgrCfg : KeyRotationConfig) (now startTime : Int)
    (s0 : SysState) (keyFilePath keyName newKeyValue environmentFile : String)
    (reason : RotationReason) (customMaxAge : Option Int) (shouldRotateKey : Bool) :
    Except String RotationResult × SysState :=
  match rotateKeyWithAuditBody ops mgrCfg now startTime s0 keyFilePath keyName newKeyValue
      environmentFile reason customMaxAge shouldRotateKey with
  | .ok (rotationResult, _processedVariableNames, s) =>
    (.ok rotationResult, performCleanupAndFinalAudit mgrCfg now s reason)
  | .error (e, rotationResult, processedVariableNames, s) =>
    let s1 := handleRotationFailure mgrCfg now s e keyName reason rotationResult
      environmentFile keyFilePath startTime newKeyValue shouldRotateKey
      processedVariableNames
    (.error e, performCleanupAndFinalAudit mgrCfg now s1 reason)

/-! ## Claim-side formula (C1) -/

/-- Modelled from the claim's words for comparison with the code: rotation
status computed with BOTH `maxAgeInDays` and `warningThresholdInDays` taken
from the key's stored `rotationConfig`. -/
def specRotationStatusFromStoredConfig (now : Int) (km : KeyMetadata) : KeyRotationStatus :=
  let referenceDate := km.lastRotatedAt.getD km.createdAt
  let ageInDays := jsCeilDiv (now - referenceDate) msPerDay
  let maxAge := km.rotationConfig.maxAgeInDays
  let needsRotation : Bool := maxAge ≤ ageInDays
  { needsRotation := needsRotation,
    needsWarning :=
      (!needsRotation) && (maxAge - ageInDays ≤ km.rotationConfig.warningThresholdInDays),
    ageInDays := ageInDays,
    daysUntilRotation := max 0 (maxAge - ageInDays) }

/-! ## Reviver-safety of typed stores (C6)

`keyMetadataSafe` restates `jsReviveSafe` on the encoding of a typed record:
every `Date` must round-trip through the canonical ISO codec, and
audit-event metadata bags must not hold any string under an allowlisted
field name (whether a given string is revived depends on the engine's
implementation-defined `new Date` parse, so only the absence of strings is
certifiable).  All other strings sit under non-allowlisted names or numeric
array indices and are automatically safe. -/

def dateOkB (t : Int) : Bool := isoToEpochMs (epochMsToIso t) == some t

def optDateOk : Option Int → Bool
  | some t => dateOkB t
  | none => true

def bagValueSafe (name : String) : BagValue → Bool
  | .bstr _ => !(isDateField name)
  | _ => true

def bagSafe (bag : List (String × BagValue)) : Bool :=
  bag.all fun p => bagValueSafe p.1 p.2

def auditEventSafe (e : AuditEvent) : Bool :=
  dateOkB e.timestamp &&
  (match e.metadata with
   | some b => bagSafe b
   | none => true)

def rotationEventSafe (e : RotationEvent) : Bool := dateOkB e.timestamp

def healthEventSafe (e : HealthCheckEvent) : Bool := dateOkB e.timestamp

def keyMetadataSafe (m : KeyMetadata) : Bool :=
  dateOkB m.createdAt && optDateOk m.lastRotatedAt &&
  optDateOk m.auditTrail.lastScheduledCheck && optDateOk m.auditTrail.lastHealthCheck &&
  optDateOk m.auditTrail.lastWarningIssued &&
  m.auditTrail.auditEvents.all auditEventSafe &&
  m.auditTrail.rotationHistory.all rotationEventSafe &&
  m.auditTrail.healthCheckHistory.all healthEventSafe &&
  optDateOk m.usageTracking.lastAccessedAt && dateOkB m.statusTracking.lastStatusChange

def storeSafe (st : MetadataStore) : Bool := st.all fun p => keyMetadataSafe p.2

mutual
/-- A decidable probe distinguishing runtime values: the number of `Date`
nodes. -/
def countDates : JsValue → Nat
  | .jdate _ => 1
  | .jarr xs => countDatesArr xs
  | .jobj fs => countDatesObj fs
  | _ => 0

def countDatesArr : JsArr → Nat
  | .nil => 0
  | .cons hd tl => countDates hd + countDatesArr tl

def countDatesObj : JsObj → Nat
  | .nil => 0
  | .cons _ v tl => countDates v + countDatesObj tl
end

/-! ## Characterization targets for the validator on typed encodings -/

/-- What `validateMetadata` checks on the encoding of a typed record: the
non-structural (range and emptiness) constraints. -/
def keyMetadataOkB (m : KeyMetadata) : Bool :=
  (0 < (jsTrim m.keyName).length) && (0 ≤ m.rotationCount) &&
  (0 < m.rotationConfig.maxAgeInDays) && (0 < m.rotationConfig.warningThresholdInDays) &&
  (m.rotationConfig.warningThresholdInDays < m.rotationConfig.maxAgeInDays) &&
  m.auditTrail.auditEvents.all (fun e => 0 < (jsTrim e.source).length) &&
  m.auditTrail.healthCheckHistory.all (fun e => 0 ≤ e.ageInDays)

def storeOkB (st : MetadataStore) : Bool := st.all fun p => keyMetadataOkB p.2

/-! ## Rotation bookkeeping view (C3) -/

/-- The rotation-relevant view of one key: its rotation counter and its
rotation history, when the key is present. -/
def rotView (s : SysState) (k : String) : Option (Int × List RotationEvent) :=
  (lookupKM s.metadata k).map fun km => (km.rotationCount, km.auditTrail.rotationHistory)

/-- A bookkeeping-only step: store validity is preserved and no key's
rotation counter or rotation history changes. -/
def BookkeepingStep (s s' : SysState) : Prop :=
  (storeOkB s.metadata = true → storeOkB s'.metadata = true) ∧
  ∀ k, rotView s' k = rotView s k

/-! ## Concrete fixtures for witnesses and counterexamples -/

def emptyState : SysState := { metadata := [], files := [] }

/-- A minimal well-formed metadata record. -/
def mkSampleKm (name : String) (cfg : KeyRotationConfig) : KeyMetadata :=
  { keyName := name, createdAt := 0, lastRotatedAt := none, rotationCount := 0,
    rotationConfig := cfg,
    auditTrail := { auditEvents := [], rotationHistory := [], healthCheckHistory := [] },
    usageTracking := { environmentsUsedIn := [], dependentVariables := [] },
    statusTracking := { currentStatus := .healthy, lastStatusChange := 0 } }

def mgr90 : KeyRotationConfig := KeyRotationConfigDefaults

/-- 80 days in milliseconds. -/
def t80 : Int := 6912000000

/-- 85 days in milliseconds. -/
def t85 : Int := 7344000000

def c1Km : KeyMetadata := mkSampleKm "API_KEY" { maxAgeInDays := 90, warningThresholdInDays := 20 }

def c1State : SysState := { metadata := [("API_KEY", c1Km)], files := [] }

def c7Km : KeyMetadata := mkSampleKm "API_KEY" { maxAgeInDays := 90, warningThresholdInDays := 7 }

def c8Km : KeyMetadata :=
  { mkSampleKm "API_KEY" { maxAgeInDays := 90, warningThresholdInDays := 7 } with
      statusTracking := { currentStatus := .healthy, lastStatusChange := 1000 } }

def c4State : SysState :=
  { metadata := [("API_KEY", mkSampleKm "API_KEY" { maxAgeInDays := 90, warningThresholdInDays := 7 })],
    files := [] }

/-- C2: a decoded record whose entry is missing `rotationConfig`. -/
def c2BadMeta : JsValue :=
  .jobj (.cons "K"
    (.jobj (.cons "keyName" (.jstr "K")
      (.cons "createdAt" (.jdate 0)
        (.cons "rotationCount" (.jnum 0) .nil)))) .nil)

/-- C3: external collaborators whose encryption fails on the second
variable of the batch. -/
def c3Ops : CryptoOps :=
  { encrypt := fun plaintext _ =>
      if plaintext = "pwB" then .error "boom" else .ok ("ENC:" ++ plaintext),
    decrypt := fun ciphertext _ => .ok (ciphertext.drop 4),
    encMarker := "ENC:",
    baseEnvFile := "base.env" }

def c3Km : KeyMetadata := mkSampleKm "DEV_KEY" { maxAgeInDays := 90, warningThresholdInDays := 7 }

def c3State : SysState :=
  { metadata := [("DEV_KEY", c3Km)],
    files := [("base.env", [("DEV_KEY", "oldKeyValue")]),
              ("dev.env", [("PORTAL_PASSWORD", "ENC:pwA"), ("VAR2", "ENC:pwB"),
                           ("VAR3", "ENC:pwC")])] }

/-- C6: an audit event whose metadata bag stores a date-formatted STRING
under the allowlisted name `timestamp`. -/
def c6Bag : List (String × BagValue) := [("timestamp", .bstr "2024-01-01T00:00:00.000Z")]

def c6Km : KeyMetadata :=
  { mkSampleKm "API_KEY" { maxAgeInDays := 90, warningThresholdInDays := 7 } with
      auditTrail :=
        { auditEvents := [{ timestamp := 0, eventType := .created, severity := .info,
                            source := "storeBaseEnvironmentKey", details := "created",
                            metadata := some c6Bag }],
          rotationHistory := [], healthCheckHistory := [] } }

def c6Store : MetadataStore := [("API_KEY", c6Km)]

/-- C6 witness: the same store with a reviver-safe bag. -/
def c6SafeKm : KeyMetadata :=
  { mkSampleKm "API_KEY" { maxAgeInDays := 90, warningThresholdInDays := 7 } with
      auditTrail :=
        { auditEvents := [{ timestamp := 0, eventType := .created, severity := .info,
                            source := "storeBaseEnvironmentKey", details := "created",
                            metadata := some [("initialMaxAge", .bnum 90)] }],
          rotationHistory := [], healthCheckHistory := [] } }

def c6SafeStore : MetadataStore := [("API_KEY", c6SafeKm)]

/-! # Theorems -/

/-! ## Serialization roundtrip core lemmas -/

mutual
/-- Stringify-then-revive is the identity on reviver-safe values, for every
engine parse `dp` that agrees with the canonical-format parser where the
latter succeeds (as ECMA-262 mandates of a conforming engine). -/
theorem revive_stringify (dp : String → Option Int)
    (hdp : ∀ s t, isoToEpochMs s = some t → dp s = some t)
    (key : String) (v : JsValue) (h : jsReviveSafe key v = true) :
    reviveJson dp key (stringifyJs v) = v := by
  cases v with
  | jnull => rfl
  | jbool b => rfl
  | jnum n => rfl
  | jstr s =>
    simp only [jsReviveSafe, Bool.not_eq_true'] at h
    simp only [stringifyJs, reviveJson, h, Bool.false_eq_true, if_false]
  | jdate t =>
    simp only [jsReviveSafe, Bool.and_eq_true, beq_iff_eq] at h
    simp only [stringifyJs, reviveJson, h.1, if_pos, hdp _ _ h.2]
  | jarr xs =>
    simp only [stringifyJs, reviveJson]
    rw [revive_stringify_arr dp hdp 0 xs h]
  | jobj fs =>
    simp only [stringifyJs, reviveJson]
    rw [revive_stringify_obj dp hdp fs h]

theorem revive_stringify_arr (dp : String → Option Int)
    (hdp : ∀ s t, isoToEpochMs s = some t → dp s = some t)
    (i : Nat) (xs : JsArr) (h : arrReviveSafe i xs = true) :
    reviveArr dp i (stringifyArr xs) = xs := by
  cases xs with
  | nil => rfl
  | cons hd tl =>
    simp only [arrReviveSafe, Bool.and_eq_true] at h
    simp only [stringifyArr, reviveArr]
    rw [revive_stringify dp hdp _ hd h.1, revive_stringify_arr dp hdp (i + 1) tl h.2]

theorem revive_stringify_obj (dp : String → Option Int)
    (hdp : ∀ s t, isoToEpochMs s = some t → dp s = some t)
    (fs : JsObj) (h : objReviveSafe fs = true) :
    reviveObj dp (stringifyObj fs) = fs := by
  cases fs with
  | nil => rfl
  | cons n v tl =>
    simp only [objReviveSafe, Bool.and_eq_true] at h
    simp only [stringifyObj, reviveObj]
    rw [revive_stringify dp hdp n v h.1, revive_stringify_obj dp hdp tl h.2]
end

/-! ## Sanity checks on the ISO codec -/

theorem epochMsToIso_zero : epochMsToIso 0 = "1970-01-01T00:00:00.000Z" := by decide

theorem isoToEpochMs_zero : isoToEpochMs "1970-01-01T00:00:00.000Z" = some 0 := by decide

theorem iso_codec_roundtrip_sample : isoToEpochMs (epochMsToIso 1704067199123) =
    some 1704067199123 := by decide

theorem epochMsToIso_sample : epochMsToIso 1704067199123 = "2023-12-31T23:59:59.123Z" := by
  decide

/-! ## Association-list lemmas -/

theorem lookupKM_setKM (l : List (String × α)) (k k' : String) (v : α) :
    lookupKM (setKM l k v) k' = if k' = k then some v else lookupKM l k' := by
  induction l with
  | nil =>
    simp only [setKM, lookupKM]
    by_cases h : k = k'
    · subst h; simp
    · rw [if_neg h, if_neg (fun hh => h hh.symm)]
  | cons hd tl ih =>
    obtain ⟨n, w⟩ := hd
    simp only [setKM]
    by_cases hn : n = k
    · subst hn
      simp only [if_pos rfl, lookupKM]
      by_cases h : n = k'
      · subst h; simp
      · simp only [lookupKM, if_neg h, if_neg (fun hh : k' = n => h hh.symm)]
    · rw [if_neg hn]
      simp only [lookupKM]
      by_cases h : n = k'
      · subst h
        simp [lookupKM, hn]
      · rw [if_neg h, ih]
        by_cases hk : k' = k
        · simp [hk]
        · simp [hk, h]

/-! ## Floor/ceil day arithmetic -/

/-- `calculateDaysSinceLastRotation` (a floor) never exceeds
`calculateKeyAge` (a ceil of the absolute difference). -/
theorem daysSince_le_age (now : Int) (km : KeyMetadata) :
    calculateDaysSinceLastRotation now km ≤ calculateKeyAge now km := by
  simp only [calculateDaysSinceLastRotation, calculateKeyAge, jsFloorDiv, jsCeilDiv, msPerDay]
  omega

/-! ## Array index keys are never date fields -/

theorem digitChar_isDigit (m : Nat) (h : m < 10) : (Nat.digitChar m).isDigit = true := by
  interval_cases m <;> decide

theorem toDigitsCore_digits (f : Nat) :
    ∀ (n : Nat) (l : List Char), (∀ c ∈ l, c.isDigit = true) →
      ∀ c ∈ Nat.toDigitsCore 10 f n l, c.isDigit = true := by
  induction f with
  | zero => intro n l hl; simpa [Nat.toDigitsCore] using hl
  | succ f ih =>
    intro n l hl c hc
    simp only [Nat.toDigitsCore] at hc
    by_cases hz : n / 10 = 0
    · simp only [hz, if_pos rfl] at hc
      rcases List.mem_cons.mp hc with h | h
      · subst h; exact digitChar_isDigit _ (Nat.mod_lt _ (by decide))
      · exact hl _ h
    · simp only [if_neg hz] at hc
      refine ih (n / 10) _ ?_ c hc
      intro d hd
      rcases List.mem_cons.mp hd with h | h
      · subst h; exact digitChar_isDigit _ (Nat.mod_lt _ (by decide))
      · exact hl _ h

theorem toDigitsCore_ne_nil (f : Nat) :
    ∀ (n : Nat) (l : List Char), l ≠ [] → Nat.toDigitsCore 10 f n l ≠ [] := by
  induction f with
  | zero => intro n l hl; simpa [Nat.toDigitsCore] using hl
  | succ f ih =>
    intro n l hl
    simp only [Nat.toDigitsCore]
    by_cases hz : n / 10 = 0
    · simp [hz]
    · simp only [if_neg hz]
      exact ih (n / 10) _ (by simp)

theorem toString_nat_head_digit (i : Nat) :
    ∃ c cs, (toString i).data = c :: cs ∧ c.isDigit = true := by
  have hne : Nat.toDigitsCore 10 (i + 1) i [] ≠ [] := by
    simp only [Nat.toDigitsCore]
    by_cases hz : i / 10 = 0
    · simp [hz]
    · simp only [if_neg hz]
      exact toDigitsCore_ne_nil _ _ _ (by simp)
  have hdig := toDigitsCore_digits (i + 1) i [] (by simp)
  have hdata : (toString i).data = Nat.toDigitsCore 10 (i + 1) i [] := rfl
  cases h : Nat.toDigitsCore 10 (i + 1) i [] with
  | nil => exact absurd h hne
  | cons c cs =>
    refine ⟨c, cs, by rw [hdata, h], ?_⟩
    exact hdig c (by rw [h]; exact List.mem_cons_self c cs)

theorem toString_nat_ne (i : Nat) (s : String) (c : Char)
    (hc : s.data.head? = some c) (hd : c.isDigit = false) : toString i ≠ s := by
  intro heq
  obtain ⟨c', cs, hdata, hdig⟩ := toString_nat_head_digit i
  rw [← heq, hdata] at hc
  simp only [List.head?] at hc
  rw [← Option.some_inj.mp hc] at hd
  rw [hdig] at hd
  simp at hd

/-- Array indices are never in the `dateReviver` allowlist. -/
theorem isDateField_natStr (i : Nat) : isDateField (toString i) = false := by
  have h1 := toString_nat_ne i "createdAt" 'c' rfl rfl
  have h2 := toString_nat_ne i "lastRotatedAt" 'l' rfl rfl
  have h3 := toString_nat_ne i "lastAccessedAt" 'l' rfl rfl
  have h4 := toString_nat_ne i "lastStatusChange" 'l' rfl rfl
  have h5 := toString_nat_ne i "lastScheduledCheck" 'l' rfl rfl
  have h6 := toString_nat_ne i "lastHealthCheck" 'l' rfl rfl
  have h7 := toString_nat_ne i "lastWarningIssued" 'l' rfl rfl
  have h8 := toString_nat_ne i "timestamp" 't' rfl rfl
  simp [isDateField, h1, h2, h3, h4, h5, h6, h7, h8]

/-! ## The validator on typed encodings -/

theorem strListToArr_isStringArray (l : List String) :
    isStringArrayJ (.jarr (strListToArr l)) = true := by
  induction l with
  | nil => rfl
  | cons hd tl ih =>
    simp only [isStringArrayJ, strListToArr, listToArr, JsArr.all] at *
    simpa using ih

theorem listToArr_all (f : α → JsValue) (p : JsValue → Bool) (l : List α) :
    (listToArr f l).all p = l.all fun x => p (f x) := by
  induction l with
  | nil => rfl
  | cons hd tl ih => simp [listToArr, JsArr.all, List.all_cons, ih]

theorem eventType_toStr_valid (t : EventType) : isValidEventType (.jstr t.toStr) = true := by
  cases t <;> decide

theorem severity_toStr_valid (t : EventSeverity) : isValidSeverity (.jstr t.toStr) = true := by
  cases t <;> decide

theorem status_toStr_valid (t : KeyStatus) : isValidStatus (.jstr t.toStr) = true := by
  cases t <;> decide

theorem reason_toStr_valid (t : RotationReason) :
    isValidRotationReason (.jstr t.toStr) = true := by
  cases t <;> decide

theorem checkSource_toStr_valid (t : CheckSource) :
    isValidCheckSource (.jstr t.toStr) = true := by
  cases t <;> decide

theorem validateAuditEvent_encode (e : AuditEvent) :
    validateAuditEvent (encodeAuditEvent e) = isNonEmptyStringJ (.jstr e.source) := by
  cases hm : e.metadata <;>
    simp [validateAuditEvent, encodeAuditEvent, optField, notPlainObject, JsValue.falsy,
      JsValue.typeofObject, JsValue.isArray, reqProp, optProp, JsValue.getProp, JsObj.find, hm,
      isValidDateJ, isStringJ, eventType_toStr_valid, severity_toStr_valid]

theorem validateRotationEvent_encode (e : RotationEvent) :
    validateRotationEvent (encodeRotationEvent e) = true := by
  cases ho : e.oldKeyHash <;> cases hn : e.newKeyHash <;> cases he : e.errorDetails <;>
    cases hv : e.overrideMode <;>
    simp [validateRotationEvent, encodeRotationEvent, optField, notPlainObject, JsValue.falsy,
      JsValue.typeofObject, JsValue.isArray, reqProp, optProp, JsValue.getProp, JsObj.find,
      ho, hn, he, hv, isValidDateJ, isStringJ, isBooleanJ, reason_toStr_valid,
      strListToArr_isStringArray]

theorem validateHealthCheckEvent_encode (e : HealthCheckEvent) :
    validateHealthCheckEvent (encodeHealthCheckEvent e) = decide (0 ≤ e.ageInDays) := by
  cases hr : e.recommendations <;>
    simp [validateHealthCheckEvent, encodeHealthCheckEvent, optField, notPlainObject,
      JsValue.falsy, JsValue.typeofObject, JsValue.isArray, reqProp, optProp, JsValue.getProp,
      JsObj.find, hr, isValidDateJ, isNumberJ, isPositiveNumberJ, status_toStr_valid,
      checkSource_toStr_valid, strListToArr_isStringArray]

theorem bool_eq_of_iff {a b : Bool} (h : a = true ↔ b = true) : a = b := by
  cases a <;> cases b <;> simp_all

theorem list_all_true (l : List α) : (l.all fun _ => true) = true := by
  induction l <;> simp_all

theorem validateAuditTrail_encode (a : AuditTrail) :
    validateAuditTrail (some (encodeAuditTrail a)) =
      (a.auditEvents.all (fun e => isNonEmptyStringJ (.jstr e.source)) &&
       a.healthCheckHistory.all fun e => decide (0 ≤ e.ageInDays)) := by
  cases hs : a.lastScheduledCheck <;> cases hh : a.lastHealthCheck <;>
    cases hw : a.lastWarningIssued <;>
    simp [validateAuditTrail, encodeAuditTrail, optField, notPlainObject, JsValue.falsy,
      JsValue.typeofObject, JsValue.isArray, optProp, JsValue.getProp, JsObj.find, hs, hh, hw,
      isValidDateJ, listToArr_all, validateAuditEvent_encode, validateRotationEvent_encode,
      validateHealthCheckEvent_encode, Bool.and_assoc, list_all_true]

theorem validateUsageTracking_encode (u : UsageTracking) :
    validateUsageTracking (some (encodeUsageTracking u)) = true := by
  cases ha : u.lastAccessedAt <;>
    simp [validateUsageTracking, encodeUsageTracking, optField, notPlainObject, JsValue.falsy,
      JsValue.typeofObject, JsValue.isArray, optProp, reqProp, JsValue.getProp, JsObj.find, ha,
      isValidDateJ, strListToArr_isStringArray]

theorem validateStatusTracking_encode (st : StatusTracking) :
    validateStatusTracking (some (encodeStatusTracking st)) = true := by
  simp [validateStatusTracking, encodeStatusTracking, notPlainObject, JsValue.falsy,
    JsValue.typeofObject, JsValue.isArray, reqProp, JsValue.getProp, JsObj.find,
    isValidDateJ, status_toStr_valid]

theorem validateRotationConfigV_encode (c : KeyRotationConfig) :
    validateRotationConfigV (some (encodeRotationConfig c)) =
      ((0 < c.maxAgeInDays) && (0 < c.warningThresholdInDays) &&
        (c.warningThresholdInDays < c.maxAgeInDays)) := by
  apply bool_eq_of_iff
  simp only [validateRotationConfigV, encodeRotationConfig, notPlainObject, JsValue.falsy,
    JsValue.typeofObject, JsValue.isArray, JsValue.getProp, JsObj.find]
  simp
  omega

theorem validateMetadata_encode (m : KeyMetadata) :
    validateMetadata (encodeKeyMetadata m) = keyMetadataOkB m := by
  cases hl : m.lastRotatedAt <;>
    simp [validateMetadata, encodeKeyMetadata, validateBasicStructure, optField,
      notPlainObject, JsValue.falsy, JsValue.typeofObject, JsValue.isArray, reqProp, optProp,
      JsValue.getProp, JsObj.find, hl, isValidDateJ, isNonEmptyStringJ, isPositiveNumberJ,
      validateRotationConfigV_encode, validateAuditTrail_encode, validateUsageTracking_encode,
      validateStatusTracking_encode, keyMetadataOkB, Bool.and_assoc]

theorem validateMetadataRecord_encodeStore (st : MetadataStore) :
    validateMetadataRecord (encodeStore st) = storeOkB st := by
  have h : ∀ fs : List (String × KeyMetadata),
      (encodeStoreFields fs).allVals (fun _ v => validateMetadata v) = storeOkB fs := by
    intro fs
    induction fs with
    | nil => rfl
    | cons hd tl ih =>
      simp [encodeStoreFields, JsObj.allVals, validateMetadata_encode, ih, storeOkB]
  simp [validateMetadataRecord, encodeStore, JsValue.falsy, JsValue.typeofObject,
    JsValue.isArray, h]

/-! ## Reviver-safety of typed encodings -/

theorem strListToArr_reviveSafe (l : List String) :
    ∀ i, arrReviveSafe i (strListToArr l) = true := by
  induction l with
  | nil => intro i; rfl
  | cons hd tl ih =>
    intro i
    simp [strListToArr, listToArr, arrReviveSafe, jsReviveSafe, isDateField_natStr,
      ih (i + 1), strListToArr] at *
    simp [ih]

theorem listToArr_reviveSafe (f : α → JsValue) (p : α → Bool)
    (hf : ∀ x k, jsReviveSafe k (f x) = p x) (l : List α) :
    ∀ i, arrReviveSafe i (listToArr f l) = l.all p := by
  induction l with
  | nil => intro i; rfl
  | cons hd tl ih => intro i; simp [listToArr, arrReviveSafe, hf, ih (i + 1), List.all_cons]

theorem encodeBagValue_reviveSafe (name : String) (v : BagValue) :
    jsReviveSafe name (encodeBagValue v) = bagValueSafe name v := by
  cases v with
  | bstr s => rfl
  | bnum n => rfl
  | bbool b => rfl
  | bstrList xs => simp [encodeBagValue, bagValueSafe, jsReviveSafe, strListToArr_reviveSafe]

theorem encodeBag_reviveSafe (bag : List (String × BagValue)) :
    objReviveSafe (encodeBag bag) = bagSafe bag := by
  induction bag with
  | nil => rfl
  | cons hd tl ih =>
    simp [encodeBag, objReviveSafe, bagSafe, encodeBagValue_reviveSafe, ih, List.all_cons]

theorem encodeAuditEvent_reviveSafe (e : AuditEvent) :
    ∀ k, jsReviveSafe k (encodeAuditEvent e) = auditEventSafe e := by
  intro k
  cases hm : e.metadata <;>
    simp [encodeAuditEvent, auditEventSafe, jsReviveSafe, objReviveSafe, optField, hm,
      isDateField, dateOkB, encodeBag_reviveSafe]

theorem encodeRotationEvent_reviveSafe (e : RotationEvent) :
    ∀ k, jsReviveSafe k (encodeRotationEvent e) = rotationEventSafe e := by
  intro k
  cases ho : e.oldKeyHash <;> cases hn : e.newKeyHash <;> cases he : e.errorDetails <;>
    cases hv : e.overrideMode <;>
    simp [encodeRotationEvent, rotationEventSafe, jsReviveSafe, objReviveSafe, optField,
      ho, hn, he, hv, isDateField, dateOkB, strListToArr_reviveSafe]

theorem encodeHealthCheckEvent_reviveSafe (e : HealthCheckEvent) :
    ∀ k, jsReviveSafe k (encodeHealthCheckEvent e) = healthEventSafe e := by
  intro k
  cases hr : e.recommendations <;>
    simp [encodeHealthCheckEvent, healthEventSafe, jsReviveSafe, objReviveSafe, optField, hr,
      isDateField, dateOkB, strListToArr_reviveSafe]

theorem encodeAuditTrail_reviveSafe (a : AuditTrail) :
    ∀ k, jsReviveSafe k (encodeAuditTrail a) =
      (optDateOk a.lastScheduledCheck && optDateOk a.lastHealthCheck &&
       optDateOk a.lastWarningIssued && a.auditEvents.all auditEventSafe &&
       a.rotationHistory.all rotationEventSafe &&
       a.healthCheckHistory.all healthEventSafe) := by
  intro k
  cases hs : a.lastScheduledCheck <;> cases hh : a.lastHealthCheck <;>
    cases hw : a.lastWarningIssued <;>
    simp [encodeAuditTrail, jsReviveSafe, objReviveSafe, optField, hs, hh, hw, isDateField,
      dateOkB, optDateOk, Bool.and_assoc,
      listToArr_reviveSafe encodeAuditEvent auditEventSafe encodeAuditEvent_reviveSafe,
      listToArr_reviveSafe encodeRotationEvent rotationEventSafe encodeRotationEvent_reviveSafe,
      listToArr_reviveSafe encodeHealthCheckEvent healthEventSafe
        encodeHealthCheckEvent_reviveSafe]

theorem encodeUsageTracking_reviveSafe (u : UsageTracking) :
    ∀ k, jsReviveSafe k (encodeUsageTracking u) = optDateOk u.lastAccessedAt := by
  intro k
  cases ha : u.lastAccessedAt <;>
    simp [encodeUsageTracking, jsReviveSafe, objReviveSafe, optField, ha, isDateField,
      dateOkB, optDateOk, strListToArr_reviveSafe]

theorem encodeStatusTracking_reviveSafe (st : StatusTracking) :
    ∀ k, jsReviveSafe k (encodeStatusTracking st) = dateOkB st.lastStatusChange := by
  intro k
  simp [encodeStatusTracking, jsReviveSafe, objReviveSafe, isDateField, dateOkB]

theorem encodeRotationConfig_reviveSafe (c : KeyRotationConfig) :
    ∀ k, jsReviveSafe k (encodeRotationConfig c) = true := by
  intro k
  simp [encodeRotationConfig, jsReviveSafe, objReviveSafe]

theorem jsReviveSafe_jobj (k : String) (fs : JsObj) :
    jsReviveSafe k (.jobj fs) = objReviveSafe fs := rfl

theorem objReviveSafe_cons (n : String) (v : JsValue) (tl : JsObj) :
    objReviveSafe (.cons n v tl) = (jsReviveSafe n v && objReviveSafe tl) := rfl

theorem objReviveSafe_nil : objReviveSafe .nil = true := rfl

theorem jsReviveSafe_jstr (k s : String) :
    jsReviveSafe k (.jstr s) = !(isDateField k) := rfl

theorem jsReviveSafe_jdate (k : String) (t : Int) :
    jsReviveSafe k (.jdate t) = (isDateField k && (isoToEpochMs (epochMsToIso t) == some t)) :=
  rfl

theorem jsReviveSafe_jnum (k : String) (n : Int) : jsReviveSafe k (.jnum n) = true := rfl

theorem jsReviveSafe_jbool (k : String) (b : Bool) : jsReviveSafe k (.jbool b) = true := rfl

theorem encodeKeyMetadata_reviveSafe (m : KeyMetadata) :
    ∀ k, jsReviveSafe k (encodeKeyMetadata m) = keyMetadataSafe m := by
  intro k
  cases hl : m.lastRotatedAt <;>
    simp [encodeKeyMetadata, keyMetadataSafe, jsReviveSafe_jobj, objReviveSafe_cons,
      objReviveSafe_nil, jsReviveSafe_jstr, jsReviveSafe_jdate, jsReviveSafe_jnum,
      jsReviveSafe_jbool, optField, hl, isDateField,
      dateOkB, optDateOk, Bool.and_assoc, encodeRotationConfig_reviveSafe,
      encodeAuditTrail_reviveSafe, encodeUsageTracking_reviveSafe,
      encodeStatusTracking_reviveSafe]

theorem encodeStore_reviveSafe (st : MetadataStore) :
    jsReviveSafe "" (encodeStore st) = storeSafe st := by
  have h : ∀ fs : MetadataStore, objReviveSafe (encodeStoreFields fs) = storeSafe fs := by
    intro fs
    induction fs with
    | nil => rfl
    | cons hd tl ih =>
      simp [encodeStoreFields, objReviveSafe, storeSafe, encodeKeyMetadata_reviveSafe, ih,
        List.all_cons]
  simp [encodeStore, jsReviveSafe, h]

/-! ## Claim C2 — readKeyMetadata recovery -/

/-- C2: for every state of the backing metadata file — absent, unreadable,
empty, malformed JSON, or failing schema validation — `readKeyMetadata`
returns the empty map, and it never propagates an error for any file state
and parse outcome. -/
theorem readKeyMetadata_never_throws_returns_empty (parse : String → Option JsValue) :
    (readKeyMetadataJ parse .absent = .ok (.jobj .nil)) ∧
    (readKeyMetadataJ parse .unreadable = .ok (.jobj .nil)) ∧
    (∀ c, jsTrim c = "" → readKeyMetadataJ parse (.present c) = .ok (.jobj .nil)) ∧
    (∀ c, parse c = none → readKeyMetadataJ parse (.present c) = .ok (.jobj .nil)) ∧
    (∀ c v, parse c = some v → validateMetadataRecord v = false →
      readKeyMetadataJ parse (.present c) = .ok (.jobj .nil)) ∧
    (∀ f, ∃ r, readKeyMetadataJ parse f = .ok r) := by
  refine ⟨rfl, rfl, ?_, ?_, ?_, ?_⟩
  · intro c hc; simp [readKeyMetadataJ, hc]
  · intro c hc
    by_cases ht : jsTrim c = "" <;> simp [readKeyMetadataJ, ht, hc]
  · intro c v hc hv
    by_cases ht : jsTrim c = "" <;> simp [readKeyMetadataJ, ht, hc, hv]
  · intro f
    cases f with
    | absent => exact ⟨_, rfl⟩
    | unreadable => exact ⟨_, rfl⟩
    | present c =>
      by_cases ht : jsTrim c = ""
      · exact ⟨.jobj .nil, by simp [readKeyMetadataJ, ht]⟩
      · cases hc : parse c with
        | none => exact ⟨.jobj .nil, by simp [readKeyMetadataJ, ht, hc]⟩
        | some v =>
          by_cases hv : validateMetadataRecord v
          · exact ⟨v, by simp [readKeyMetadataJ, ht, hc, hv]⟩
          · exact ⟨.jobj .nil, by simp [readKeyMetadataJ, ht, hc, hv]⟩

/-- C2 witness: a record missing `rotationConfig` fails validation and the
read returns the empty map; likewise for the other failure states. -/
theorem readKeyMetadata_never_throws_returns_empty_witness :
    validateMetadataRecord c2BadMeta = false ∧
    readKeyMetadataJ (fun _ => some c2BadMeta) .absent = .ok (.jobj .nil) ∧
    readKeyMetadataJ (fun _ => some c2BadMeta) (.present "   ") = .ok (.jobj .nil) ∧
    readKeyMetadataJ (fun _ => none) (.present "not json") = .ok (.jobj .nil) ∧
    readKeyMetadataJ (fun _ => some c2BadMeta) (.present "corrupt record") =
      .ok (.jobj .nil) := by
  refine ⟨by decide, (readKeyMetadata_never_throws_returns_empty _).1, ?_, ?_, ?_⟩
  · exact (readKeyMetadata_never_throws_returns_empty _).2.2.1 "   " (by decide)
  · exact (readKeyMetadata_never_throws_returns_empty _).2.2.2.1 "not json" rfl
  · exact (readKeyMetadata_never_throws_returns_empty _).2.2.2.2.1 _ c2BadMeta rfl (by decide)

/-! ## Claim C5 — validateRotationConfig acceptance -/

/-- C5 (amended): the manager's `validateRotationConfig` accepts (returning
the config unchanged) exactly the truthy object-typed configs whose
`maxAgeInDays` is a positive number and whose `warningThresholdInDays` is a
non-negative number strictly below `maxAgeInDays`.  In particular — contrary
to the claim's strict `0 < warningThresholdInDays` bound —
`warningThresholdInDays = 0` is accepted. -/
theorem validateRotationConfig_acceptance (config : JsValue) :
    validateRotationConfig config = .ok config ↔
      (config.falsy = false ∧ config.typeofObject = true ∧
       ∃ m w : Int, config.getProp "maxAgeInDays" = some (.jnum m) ∧
         config.getProp "warningThresholdInDays" = some (.jnum w) ∧
         0 < m ∧ 0 ≤ w ∧ w < m) := by
  unfold validateRotationConfig
  by_cases h1 : (config.falsy || !config.typeofObject) = true
  · rw [if_pos h1]
    constructor
    · intro h; exact absurd h (by simp)
    · rintro ⟨hf, ht, _⟩
      rw [hf, ht] at h1
      exact absurd h1 (by simp)
  · rw [if_neg h1]
    have hft : config.falsy = false ∧ config.typeofObject = true := by
      revert h1; cases config.falsy <;> cases config.typeofObject <;> simp
    obtain ⟨hf, ht⟩ := hft
    cases hm : config.getProp "maxAgeInDays" with
    | none => simp [hm, hf, ht]
    | some vm =>
      cases hw : config.getProp "warningThresholdInDays" with
      | none => cases vm <;> simp only [hm, hw, hf, ht] <;> split_ifs <;> simp_all
      | some vw =>
        cases vm <;> cases vw <;> simp only [hm, hw, hf, ht] <;> split_ifs <;>
          simp_all <;> omega

/-- C5 counterexample: `warningThresholdInDays = 0` violates the claim's
`0 < warningThresholdInDays` bound, yet `validateRotationConfig` accepts
the config instead of failing. -/
theorem validateRotationConfig_accepts_zero_warning_counterexample :
    validateRotationConfig (encodeRotationConfig
      { maxAgeInDays := 90, warningThresholdInDays := 0 }) =
      .ok (encodeRotationConfig { maxAgeInDays := 90, warningThresholdInDays := 0 }) ∧
    ¬(0 : Int) < 0 := ⟨rfl, by decide⟩

/-- C5 witness: a config with `0 < warning < max` is accepted, via the
characterization. -/
theorem validateRotationConfig_acceptance_witness :
    validateRotationConfig (encodeRotationConfig KeyRotationConfigDefaults) =
      .ok (encodeRotationConfig KeyRotationConfigDefaults) :=
  (validateRotationConfig_acceptance _).mpr
    ⟨rfl, rfl, 90, 7, rfl, rfl, by decide, by decide, by decide⟩

/-! ## Claim C9 — missing key ⇒ neutral default status -/

/-- C9: for a key with no metadata record, `checkKeyRotationStatus` returns
the neutral default — no rotation needed, no warning, age 0, the manager's
full `maxAgeInDays` remaining — without error and without touching the
state. -/
theorem checkKeyRotationStatus_missing_key_default (mgrCfg : KeyRotationConfig) (now : Int)
    (s : SysState) (keyName : String) (checkSource : CheckSource)
    (hkey : lookupKM (readKeyMetadataT s) keyName = none) :
    checkKeyRotationStatusT mgrCfg now s keyName checkSource =
      .ok ({ needsRotation := false, needsWarning := false, ageInDays := 0,
             daysUntilRotation := mgrCfg.maxAgeInDays }, s) := by
  simp [checkKeyRotationStatusT, hkey, createDefaultRotationStatus]

/-- C9 witness: the empty store. -/
theorem checkKeyRotationStatus_missing_key_default_witness :
    checkKeyRotationStatusT KeyRotationConfigDefaults 1000 emptyState "MISSING" .api =
      .ok ({ needsRotation := false, needsWarning := false, ageInDays := 0,
             daysUntilRotation := 90 }, emptyState) :=
  checkKeyRotationStatus_missing_key_default KeyRotationConfigDefaults 1000 emptyState
    "MISSING" .api (by decide)

/-! ## Claim C10 — missing key ⇒ silent no-op bookkeeping -/

/-- C10: for a key with no metadata record, `recordAuditEvent`,
`recordHealthCheck` and `recordKeyAccess` return normally (they expose no
error channel: all their failures are caught internally) and leave the
persisted state unchanged. -/
theorem missing_key_bookkeeping_noops (now : Int) (s : SysState) (keyName : String)
    (eventType : EventType) (severity : EventSeverity) (source details : String)
    (bag : Option (List (String × BagValue))) (ageInDays daysUntilExpiry : Int)
    (status : KeyStatus) (checkSource : CheckSource) (recs : Option (List String))
    (accessSource : String)
    (hkey : lookupKM (readKeyMetadataT s) keyName = none) :
    recordAuditEvent now s keyName eventType severity source details bag = s ∧
    recordHealthCheck now s keyName ageInDays daysUntilExpiry status checkSource recs = s ∧
    recordKeyAccess now s keyName accessSource = s := by
  refine ⟨?_, ?_, ?_⟩
  · simp [recordAuditEvent, hkey]
  · simp [recordHealthCheck, hkey]
  · simp [recordKeyAccess, hkey]

/-- C10 witness: the empty store. -/
theorem missing_key_bookkeeping_noops_witness :
    recordAuditEvent 5 emptyState "NOKEY" .accessed .info "unit" "d" none = emptyState ∧
    recordHealthCheck 5 emptyState "NOKEY" 1 2 .healthy .api none = emptyState ∧
    recordKeyAccess 5 emptyState "NOKEY" "unit" = emptyState :=
  missing_key_bookkeeping_noops 5 emptyState "NOKEY" .accessed .info "unit" "d" none 1 2
    .healthy .api none "unit" (by decide)

/-! ## Claim C1 — checkKeyRotationStatus formula -/

theorem calculateKeyAge_of_past (now : Int) (km : KeyMetadata)
    (h : km.lastRotatedAt.getD km.createdAt ≤ now) :
    calculateKeyAge now km = jsCeilDiv (now - km.lastRotatedAt.getD km.createdAt) msPerDay := by
  show jsCeilDiv ((now - km.lastRotatedAt.getD km.createdAt).natAbs : Int) msPerDay = _
  rw [Int.natAbs_of_nonneg (by omega)]

/-- C1 (amended): for a stored key with a valid rotationConfig (and a
reference date not in the future), `checkKeyRotationStatus` returns
`ageInDays = ceil((now − (lastRotatedAt ?? createdAt)) / 86400000)`,
`needsRotation = ageInDays ≥ maxAgeInDays`,
`daysUntilRotation = max(0, maxAgeInDays − ageInDays)` with `maxAgeInDays`
from the key's stored config — but `needsWarning` compares against the
MANAGER's configured `warningThresholdInDays`, not the stored config's. -/
theorem checkKeyRotationStatus_uses_manager_warning_threshold
    (mgrCfg : KeyRotationConfig) (now : Int) (s : SysState) (keyName : String)
    (checkSource : CheckSource) (km : KeyMetadata)
    (hvalid : validateMetadataRecord (encodeStore s.metadata) = true)
    (hkey : lookupKM s.metadata keyName = some km)
    (hcfg : validateRotationConfigT km.rotationConfig = .ok km.rotationConfig)
    (hpast : km.lastRotatedAt.getD km.createdAt ≤ now) :
    ∃ s', checkKeyRotationStatusT mgrCfg now s keyName checkSource =
      .ok ({ needsRotation :=
               decide (km.rotationConfig.maxAgeInDays ≤
                 jsCeilDiv (now - km.lastRotatedAt.getD km.createdAt) msPerDay),
             needsWarning :=
               decide (km.rotationConfig.maxAgeInDays -
                   jsCeilDiv (now - km.lastRotatedAt.getD km.createdAt) msPerDay ≤
                 mgrCfg.warningThresholdInDays) &&
               !decide (km.rotationConfig.maxAgeInDays ≤
                 jsCeilDiv (now - km.lastRotatedAt.getD km.createdAt) msPerDay),
             ageInDays := jsCeilDiv (now - km.lastRotatedAt.getD km.createdAt) msPerDay,
             daysUntilRotation :=
               max 0 (km.rotationConfig.maxAgeInDays -
                 jsCeilDiv (now - km.lastRotatedAt.getD km.createdAt) msPerDay) }, s') := by
  have hread : readKeyMetadataT s = s.metadata := by simp [readKeyMetadataT, hvalid]
  have hage := calculateKeyAge_of_past now km hpast
  have key : checkKeyRotationStatusT mgrCfg now s keyName checkSource =
      .ok (calculateRotationStatus mgrCfg (calculateKeyAge now km) km.rotationConfig,
        processHealthCheckAndAudit now s keyName
          (calculateRotationStatus mgrCfg (calculateKeyAge now km) km.rotationConfig)
          checkSource) := by
    simp only [checkKeyRotationStatusT, hread, hkey, getValidatedRotationConfig, hcfg]
  rw [hage] at key
  exact ⟨_, by rw [key]; simp only [calculateRotationStatus]; rfl⟩

/-- C1 counterexample: a key whose stored `warningThresholdInDays` (20)
differs from the manager's (7).  At age 80 of 90 the claim's formula
(stored threshold) says `needsWarning = true`, but the code returns
`needsWarning = false` because it uses the manager's threshold. -/
theorem checkKeyRotationStatus_stored_threshold_counterexample :
    validateMetadataRecord (encodeStore c1State.metadata) = true ∧
    validateRotationConfigT c1Km.rotationConfig = .ok c1Km.rotationConfig ∧
    (checkKeyRotationStatusT mgr90 t80 c1State "API_KEY" .manual).toOption.map
      (fun p => p.1.needsWarning) = some false ∧
    (specRotationStatusFromStoredConfig t80 c1Km).needsWarning = true := by
  refine ⟨by decide, rfl, by decide, by decide⟩

/-- C1 witness for the amended theorem. -/
theorem checkKeyRotationStatus_uses_manager_warning_threshold_witness :
    ∃ s', checkKeyRotationStatusT mgr90 t80 c1State "API_KEY" .manual =
      .ok ({ needsRotation := decide ((90 : Int) ≤ jsCeilDiv (t80 - 0) msPerDay),
             needsWarning := decide ((90 : Int) - jsCeilDiv (t80 - 0) msPerDay ≤ 7) &&
               !decide ((90 : Int) ≤ jsCeilDiv (t80 - 0) msPerDay),
             ageInDays := jsCeilDiv (t80 - 0) msPerDay,
             daysUntilRotation := max 0 ((90 : Int) - jsCeilDiv (t80 - 0) msPerDay) }, s') :=
  checkKeyRotationStatus_uses_manager_warning_threshold mgr90 t80 c1State "API_KEY" .manual
    c1Km (by decide) (by decide) rfl (by decide)

/-! ## Claim C7 — warning-threshold agreement -/

/-- C7 (amended): for the same metadata and the same warning threshold in
both configs, with a successful operation, an unexpired key and a check
reason other than `expired`, `determineHealthStatus` classifies `warning`
exactly when `calculateRotationStatus` sets `needsWarning` — in particular
they agree at the boundary `age = maxAge − warningThreshold`. -/
theorem healthStatus_warning_agrees_with_needsWarning
    (now : Int) (km : KeyMetadata) (reason : String) (mgrCfg : KeyRotationConfig)
    (hreason : reason ≠ "expired")
    (hnotexp : calculateKeyAge now km < km.rotationConfig.maxAgeInDays)
    (hcfg : mgrCfg.warningThresholdInDays = km.rotationConfig.warningThresholdInDays) :
    (determineHealthStatus now km true reason = .warning ↔
      (calculateRotationStatus mgrCfg (calculateKeyAge now km)
        km.rotationConfig).needsWarning = true) := by
  have hds := daysSince_le_age now km
  simp only [determineHealthStatus, calculateRotationStatus, hcfg, Bool.not_true,
    Bool.false_eq_true, if_false, if_neg hreason]
  rw [if_neg (by omega : ¬km.rotationConfig.maxAgeInDays ≤ calculateKeyAge now km)]
  by_cases h2 : km.rotationConfig.maxAgeInDays - km.rotationConfig.warningThresholdInDays ≤
      calculateKeyAge now km
  · rw [if_pos h2]
    simp only [true_iff]
    simp
    omega
  · rw [if_neg h2, if_neg (by omega : ¬km.rotationConfig.maxAgeInDays -
      km.rotationConfig.warningThresholdInDays ≤ calculateDaysSinceLastRotation now km)]
    constructor
    · intro h; exact absurd h (by simp)
    · intro h
      simp at h
      omega

/-- C7 counterexample: with reason `expired` and a successful operation the
derivation short-circuits to `healthy`, even though the key (85 of 90 days
old, threshold 7) is inside the warning window where `needsWarning` is
true. -/
theorem healthStatus_expired_reason_counterexample :
    calculateKeyAge t85 c7Km < c7Km.rotationConfig.maxAgeInDays ∧
    (calculateRotationStatus mgr90 (calculateKeyAge t85 c7Km)
      c7Km.rotationConfig).needsWarning = true ∧
    determineHealthStatus t85 c7Km true "expired" = .healthy ∧
    determineHealthStatus t85 c7Km true "expired" ≠ .warning := by decide

/-- C7 witness for the amended theorem. -/
theorem healthStatus_warning_agrees_with_needsWarning_witness :
    (determineHealthStatus t85 c7Km true "manual" = .warning ↔
      (calculateRotationStatus mgr90 (calculateKeyAge t85 c7Km)
        c7Km.rotationConfig).needsWarning = true) :=
  healthStatus_warning_agrees_with_needsWarning t85 c7Km "manual" mgr90 (by decide)
    (by decide) (by decide)

/-! ## Claim C8 — statusTracking updated only on change -/

/-- C8 (amended): in the monitoring health-check path (`recordHealthCheck`
via `updateStatusIfChanged`), when the derived status equals the key's
`currentStatus`, the persisted `statusTracking` — both `currentStatus` and
`lastStatusChange` — is left unchanged.  (The rotation-path
`addHealthCheckEntry`/`updateKeyStatus` instead rewrites them
unconditionally; see the counterexample.) -/
theorem recordHealthCheck_status_unchanged_frame
    (now : Int) (s : SysState) (keyName : String) (ageInDays daysUntilExpiry : Int)
    (status : KeyStatus) (checkSource : CheckSource) (recs : Option (List String))
    (km : KeyMetadata)
    (hkey : lookupKM (readKeyMetadataT s) keyName = some km)
    (hsame : km.statusTracking.currentStatus = status) :
    ∃ km', lookupKM (recordHealthCheck now s keyName ageInDays daysUntilExpiry status
        checkSource recs).metadata keyName = some km' ∧
      km'.statusTracking = km.statusTracking := by
  have hmeta : readKeyMetadataT s = s.metadata ∧ lookupKM s.metadata keyName = some km := by
    unfold readKeyMetadataT at hkey ⊢
    by_cases hv : validateMetadataRecord (encodeStore s.metadata)
    · simpa [hv] using hkey
    · rw [if_neg hv] at hkey; simp [lookupKM] at hkey
  simp only [recordHealthCheck, hkey]
  have hstatus : ∀ km3 : KeyMetadata, km3.statusTracking = km.statusTracking →
      (trimHealthCheckHistoryForMonitoring km3).statusTracking = km.statusTracking := by
    intro km3 h3
    unfold trimHealthCheckHistoryForMonitoring
    by_cases hlen : 50 < km3.auditTrail.healthCheckHistory.length <;> simp [hlen, h3]
  set km1 : KeyMetadata := { km with auditTrail :=
    { km.auditTrail with
        healthCheckHistory := km.auditTrail.healthCheckHistory ++
          [{ timestamp := now, ageInDays := ageInDays, daysUntilExpiry := daysUntilExpiry,
             status := status, checkSource := checkSource, recommendations := recs }],
        lastHealthCheck := some now } } with hkm1
  have hsame1 : updateStatusIfChanged now km1 status = km1 := by
    unfold updateStatusIfChanged
    rw [if_neg]
    simp [hkm1, hsame]
  rw [hsame1]
  set km3 := trimHealthCheckHistoryForMonitoring km1 with hkm3
  have h3 : km3.statusTracking = km.statusTracking := hstatus km1 (by simp [hkm1])
  cases hwrite : writeKeyMetadataT s (setKM (readKeyMetadataT s) keyName km3) with
  | ok s1 =>
    refine ⟨km3, ?_, h3⟩
    unfold writeKeyMetadataT at hwrite
    split_ifs at hwrite with hv
    · cases hwrite
      simp [lookupKM_setKM, hmeta.1]
  | error e => exact ⟨km, hmeta.2, rfl⟩

/-- C8 counterexample: the rotation-path `addHealthCheckEntry` derives the
same status the key already has (`healthy`), yet `updateKeyStatus`
rewrites `lastStatusChange` anyway. -/
theorem addHealthCheckEntry_updates_lastStatusChange_counterexample :
    determineHealthStatus 2000 c8Km true "manual" = c8Km.statusTracking.currentStatus ∧
    (addHealthCheckEntry 2000 "API_KEY" c8Km true "manual" none).statusTracking.currentStatus =
      c8Km.statusTracking.currentStatus ∧
    (addHealthCheckEntry 2000 "API_KEY" c8Km true "manual"
        none).statusTracking.lastStatusChange ≠
      c8Km.statusTracking.lastStatusChange := by decide

/-- C8 witness for the amended theorem. -/
theorem recordHealthCheck_status_unchanged_frame_witness :
    ∃ km', lookupKM (recordHealthCheck 2000 { metadata := [("API_KEY", c8Km)], files := [] }
        "API_KEY" 1 89 .healthy .api none).metadata "API_KEY" = some km' ∧
      km'.statusTracking = c8Km.statusTracking :=
  recordHealthCheck_status_unchanged_frame 2000 _ "API_KEY" 1 89 .healthy .api none c8Km
    (by decide) (by decide)

/-! ## Store validity plumbing -/

theorem storeOkB_lookup (st : MetadataStore) (k : String) (km : KeyMetadata)
    (h : storeOkB st = true) (hk : lookupKM st k = some km) : keyMetadataOkB km = true := by
  induction st with
  | nil => simp [lookupKM] at hk
  | cons hd tl ih =>
    simp only [storeOkB, List.all_cons, Bool.and_eq_true] at h
    simp only [lookupKM] at hk
    by_cases hn : hd.1 = k
    · rw [if_pos hn] at hk
      cases hk
      exact h.1
    · rw [if_neg hn] at hk
      exact ih h.2 hk

theorem storeOkB_setKM (st : MetadataStore) (k : String) (km' : KeyMetadata)
    (h : storeOkB st = true) (hm : keyMetadataOkB km' = true) :
    storeOkB (setKM st k km') = true := by
  induction st with
  | nil => simp [setKM, storeOkB, hm]
  | cons hd tl ih =>
    simp only [storeOkB, List.all_cons, Bool.and_eq_true] at h
    simp only [setKM]
    by_cases hn : hd.1 = k
    · rw [if_pos hn]
      simp only [storeOkB, List.all_cons, Bool.and_eq_true]
      exact ⟨hm, h.2⟩
    · rw [if_neg hn]
      simp only [storeOkB, List.all_cons, Bool.and_eq_true]
      exact ⟨h.1, ih h.2⟩

theorem all_of_drop (l : List α) (p : α → Bool) (n : Nat) (h : l.all p = true) :
    (l.drop n).all p = true := by
  rw [List.all_eq_true] at h ⊢
  exact fun x hx => h x (List.drop_subset n l hx)

/-! ## Claim C6 — serialize/revive round trip -/

/-- C6 (amended): for every engine date parse `dp` that conforms to
ECMA-262 (it agrees with the canonical-format parser `isoToEpochMs`
wherever the latter succeeds — the engine may parse arbitrarily more), and
for every metadata map that passes validation AND is reviver-safe
(`storeSafe`: every `Date` round-trips through the canonical codec, and no
string value sits under an allowlisted field name inside an audit-event
metadata bag), writing then reading yields the structurally identical
in-memory value, and the read-back validates again.  The `storeSafe`
restriction is forced by the counterexample below; it must forbid bag
strings under allowlisted names outright because which strings `new Date`
accepts beyond the mandated format is implementation-defined. -/
theorem metadata_write_read_roundtrip (dp : String → Option Int) (st : MetadataStore)
    (hdp : ∀ s t, isoToEpochMs s = some t → dp s = some t)
    (hval : validateMetadataRecord (encodeStore st) = true)
    (hsafe : storeSafe st = true) :
    reviveJson dp "" (stringifyJs (encodeStore st)) = encodeStore st ∧
    validateMetadataRecord (reviveJson dp "" (stringifyJs (encodeStore st))) = true := by
  have h := revive_stringify dp hdp "" (encodeStore st)
    (by rw [encodeStore_reviveSafe]; exact hsafe)
  exact ⟨h, by rw [h]; exact hval⟩

/-- C6 counterexample: a validated map whose audit-event metadata bag holds
the STRING "2024-01-01T00:00:00.000Z" under the allowlisted name
`timestamp`.  The string is in the canonical mandated format, so EVERY
conforming engine revives it into a `Date` — here witnessed by the minimal
conforming parse `isoToEpochMs` itself — and write-then-read is not
structurally equal to the original. -/
theorem metadata_roundtrip_bag_counterexample :
    validateMetadataRecord (encodeStore c6Store) = true ∧
    reviveJson isoToEpochMs "" (stringifyJs (encodeStore c6Store)) ≠ encodeStore c6Store :=
  ⟨by decide, fun h => absurd (congrArg countDates h) (by decide)⟩

/-- C6 witness for the amended theorem: the minimal conforming parse and a
store whose bag holds no strings under allowlisted names. -/
theorem metadata_write_read_roundtrip_witness :
    reviveJson isoToEpochMs "" (stringifyJs (encodeStore c6SafeStore)) =
      encodeStore c6SafeStore ∧
    validateMetadataRecord (reviveJson isoToEpochMs ""
      (stringifyJs (encodeStore c6SafeStore))) = true :=
  metadata_write_read_roundtrip isoToEpochMs c6SafeStore (fun _ _ h => h) (by decide)
    (by decide)

/-! ## Claim C4 — auditEvents cap -/

/-- C4: `recordAuditEvent` on a stored key (valid store, nonempty source)
appends the new event and keeps exactly the most recent
`min(oldCount + 1, 100)` events in insertion order — the oldest are dropped
first and the array never exceeds 100 entries. -/
theorem recordAuditEvent_caps_at_100_fifo
    (now : Int) (s : SysState) (keyName : String) (eventType : EventType)
    (severity : EventSeverity) (source details : String)
    (bag : Option (List (String × BagValue))) (km : KeyMetadata)
    (hvalid : validateMetadataRecord (encodeStore s.metadata) = true)
    (hkey : lookupKM s.metadata keyName = some km)
    (hsrc : 0 < (jsTrim source).length) :
    ∃ km',
      lookupKM (recordAuditEvent now s keyName eventType severity source details
        bag).metadata keyName = some km' ∧
      km'.auditTrail.auditEvents =
        (km.auditTrail.auditEvents ++
          [({ timestamp := now, eventType := eventType, severity := severity, source := source,
              details := details, metadata := bag } : AuditEvent)]).drop
          (km.auditTrail.auditEvents.length + 1 - 100) ∧
      km'.auditTrail.auditEvents.length ≤ 100 := by
  have hok : storeOkB s.metadata = true := by
    rw [← validateMetadataRecord_encodeStore]; exact hvalid
  have hread : readKeyMetadataT s = s.metadata := by simp [readKeyMetadataT, hvalid]
  have hkmok : keyMetadataOkB km = true := storeOkB_lookup _ _ _ hok hkey
  simp only [recordAuditEvent, hread, hkey]
  set ev : AuditEvent :=
    { timestamp := now, eventType := eventType, severity := severity, source := source,
      details := details, metadata := bag } with hev
  set events1 := km.auditTrail.auditEvents ++ [ev] with hevents1
  have hif : (if 100 < events1.length then events1.drop (events1.length - 100) else events1) =
      events1.drop (km.auditTrail.auditEvents.length + 1 - 100) := by
    by_cases h : 100 < events1.length
    · rw [if_pos h]
      congr 1
      simp [hevents1]
    · rw [if_neg h]
      have h0 : km.auditTrail.auditEvents.length + 1 - 100 = 0 := by
        simp only [hevents1, List.length_append, List.length_cons, List.length_nil] at h
        omega
      rw [h0, List.drop_zero]
  rw [hif]
  set km1 := ({ km with auditTrail :=
    { km.auditTrail with
        auditEvents := events1.drop (km.auditTrail.auditEvents.length + 1 - 100) } } :
      KeyMetadata) with hkm1
  have hkm1ok : keyMetadataOkB km1 = true := by
    simp only [keyMetadataOkB, Bool.and_eq_true] at hkmok ⊢
    refine ⟨⟨hkmok.1.1, ?_⟩, hkmok.2⟩
    apply all_of_drop
    simp only [hevents1, List.all_append, Bool.and_eq_true]
    refine ⟨hkmok.1.2, ?_⟩
    simp [hev, hsrc]
  have hwrite : writeKeyMetadataT s (setKM s.metadata keyName km1) =
      .ok { s with metadata := setKM s.metadata keyName km1 } := by
    unfold writeKeyMetadataT
    rw [if_pos]
    rw [validateMetadataRecord_encodeStore]
    exact storeOkB_setKM _ _ _ hok hkm1ok
  rw [hwrite]
  refine ⟨km1, ?_, rfl, ?_⟩
  · simp [lookupKM_setKM]
  · simp only [hkm1]
    have := List.length_drop (km.auditTrail.auditEvents.length + 1 - 100) events1
    simp only [hevents1, List.length_append, List.length_cons, List.length_nil] at this ⊢
    omega

/-- C4 witness. -/
theorem recordAuditEvent_caps_at_100_fifo_witness :
    ∃ km',
      lookupKM (recordAuditEvent 7 c4State "API_KEY" .accessed .info "unit-test" "details"
        none).metadata "API_KEY" = some km' ∧
      km'.auditTrail.auditEvents =
        ((mkSampleKm "API_KEY" mgr90).auditTrail.auditEvents ++
          [({ timestamp := 7, eventType := .accessed, severity := .info, source := "unit-test",
              details := "details", metadata := none } : AuditEvent)]).drop
          ((mkSampleKm "API_KEY" mgr90).auditTrail.auditEvents.length + 1 - 100) ∧
      km'.auditTrail.auditEvents.length ≤ 100 :=
  recordAuditEvent_caps_at_100_fifo 7 c4State "API_KEY" .accessed .info "unit-test" "details"
    none (mkSampleKm "API_KEY" mgr90) (by decide) (by decide) (by decide)

/-! ## Bookkeeping-step plumbing (C3) -/

theorem bookkeepingStep_refl (s : SysState) : BookkeepingStep s s :=
  ⟨fun h => h, fun _ => rfl⟩

theorem bookkeepingStep_trans {s1 s2 s3 : SysState}
    (h1 : BookkeepingStep s1 s2) (h2 : BookkeepingStep s2 s3) : BookkeepingStep s1 s3 :=
  ⟨fun h => h2.1 (h1.1 h), fun k => (h2.2 k).trans (h1.2 k)⟩

theorem metadata_eq_bookkeepingStep {s s' : SysState} (h : s'.metadata = s.metadata) :
    BookkeepingStep s s' :=
  ⟨fun hv => by rw [h]; exact hv, fun k => by simp only [rotView, h]⟩

theorem readKeyMetadataT_valid {s : SysState}
    (h : validateMetadataRecord (encodeStore s.metadata) = true) :
    readKeyMetadataT s = s.metadata := by
  simp [readKeyMetadataT, h]

theorem readKeyMetadataT_invalid {s : SysState}
    (h : validateMetadataRecord (encodeStore s.metadata) = false) :
    readKeyMetadataT s = [] := by
  simp [readKeyMetadataT, h]

theorem writeKeyMetadataT_ok {s : SysState} {st : MetadataStore} {s1 : SysState}
    (h : writeKeyMetadataT s st = .ok s1) :
    s1.metadata = st ∧ validateMetadataRecord (encodeStore st) = true := by
  by_cases hv : validateMetadataRecord (encodeStore st) = true
  · simp only [writeKeyMetadataT, hv, if_true, Except.ok.injEq] at h
    exact ⟨by rw [← h], hv⟩
  · rw [Bool.not_eq_true] at hv
    simp [writeKeyMetadataT, hv] at h

theorem bookkeepingStep_of_metadata (s s' : SysState) (keyName : String) (km km1 : KeyMetadata)
    (hl : lookupKM s.metadata keyName = some km)
    (hrc : km1.rotationCount = km.rotationCount)
    (hrh : km1.auditTrail.rotationHistory = km.auditTrail.rotationHistory)
    (hmeta : s'.metadata = setKM s.metadata keyName km1)
    (hv : validateMetadataRecord (encodeStore (setKM s.metadata keyName km1)) = true) :
    BookkeepingStep s s' := by
  constructor
  · intro _
    rw [hmeta, ← validateMetadataRecord_encodeStore]
    exact hv
  · intro k
    simp only [rotView, hmeta]
    rw [lookupKM_setKM]
    by_cases hk : k = keyName
    · subst hk
      simp [hl, hrc, hrh]
    · simp [hk]

theorem bookkeepingStep_writeMatch (s : SysState) (keyName : String) (km km1 : KeyMetadata)
    (hl : lookupKM s.metadata keyName = some km)
    (hrc : km1.rotationCount = km.rotationCount)
    (hrh : km1.auditTrail.rotationHistory = km.auditTrail.rotationHistory) :
    BookkeepingStep s
      (match writeKeyMetadataT s (setKM s.metadata keyName km1) with
       | .ok s1 => s1
       | .error _ => s) := by
  cases hw : writeKeyMetadataT s (setKM s.metadata keyName km1) with
  | error e => exact bookkeepingStep_refl s
  | ok s1 =>
    obtain ⟨hmeta, hval⟩ := writeKeyMetadataT_ok hw
    exact bookkeepingStep_of_metadata s s1 keyName km km1 hl hrc hrh hmeta hval

theorem updateStatusIfChanged_rotFields (now : Int) (km : KeyMetadata) (st : KeyStatus) :
    (updateStatusIfChanged now km st).rotationCount = km.rotationCount ∧
    (updateStatusIfChanged now km st).auditTrail.rotationHistory =
      km.auditTrail.rotationHistory := by
  simp only [updateStatusIfChanged]
  split <;> exact ⟨rfl, rfl⟩

theorem trimMonitoring_rotFields (km : KeyMetadata) :
    (trimHealthCheckHistoryForMonitoring km).rotationCount = km.rotationCount ∧
    (trimHealthCheckHistoryForMonitoring km).auditTrail.rotationHistory =
      km.auditTrail.rotationHistory := by
  simp only [trimHealthCheckHistoryForMonitoring]
  split <;> exact ⟨rfl, rfl⟩

theorem bookkeepingStep_recordAuditEvent (now : Int) (s : SysState) (keyName : String)
    (et : EventType) (sev : EventSeverity) (src dts : String)
    (bag : Option (List (String × BagValue))) :
    BookkeepingStep s (recordAuditEvent now s keyName et sev src dts bag) := by
  by_cases hv : validateMetadataRecord (encodeStore s.metadata) = true
  · cases hl : lookupKM s.metadata keyName with
    | none =>
      simp only [recordAuditEvent, readKeyMetadataT_valid hv, hl]
      exact bookkeepingStep_refl s
    | some km =>
      simp only [recordAuditEvent, readKeyMetadataT_valid hv, hl]
      exact bookkeepingStep_writeMatch s keyName km _ hl rfl rfl
  · rw [Bool.not_eq_true] at hv
    simp only [recordAuditEvent, readKeyMetadataT_invalid hv, lookupKM]
    exact bookkeepingStep_refl s

theorem bookkeepingStep_recordHealthCheck (now : Int) (s : SysState) (keyName : String)
    (ageInDays daysUntilExpiry : Int) (status : KeyStatus) (checkSource : CheckSource)
    (recommendations : Option (List String)) :
    BookkeepingStep s (recordHealthCheck now s keyName ageInDays daysUntilExpiry status
      checkSource recommendations) := by
  by_cases hv : validateMetadataRecord (encodeStore s.metadata) = true
  · cases hl : lookupKM s.metadata keyName with
    | none =>
      simp only [recordHealthCheck, readKeyMetadataT_valid hv, hl]
      exact bookkeepingStep_refl s
    | some km =>
      simp only [recordHealthCheck, readKeyMetadataT_valid hv, hl]
      refine bookkeepingStep_writeMatch s keyName km _ hl ?_ ?_
      · rw [(trimMonitoring_rotFields _).1, (updateStatusIfChanged_rotFields _ _ _).1]
      · rw [(trimMonitoring_rotFields _).2, (updateStatusIfChanged_rotFields _ _ _).2]
  · rw [Bool.not_eq_true] at hv
    simp only [recordHealthCheck, readKeyMetadataT_invalid hv, lookupKM]
    exact bookkeepingStep_refl s

theorem bookkeepingStep_recordRotationAuditEvents (now : Int) (s : SysState) (keyName : String)
    (status : KeyRotationStatus) :
    BookkeepingStep s (recordRotationAuditEvents now s keyName status) := by
  simp only [recordRotationAuditEvents]
  split
  · exact bookkeepingStep_recordAuditEvent _ _ _ _ _ _ _ _
  · split
    · exact bookkeepingStep_recordAuditEvent _ _ _ _ _ _ _ _
    · exact bookkeepingStep_refl s

theorem bookkeepingStep_processHealthCheckAndAudit (now : Int) (s : SysState) (keyName : String)
    (status : KeyRotationStatus) (checkSource : CheckSource) :
    BookkeepingStep s (processHealthCheckAndAudit now s keyName status checkSource) := by
  simp only [processHealthCheckAndAudit]
  exact bookkeepingStep_trans
    (bookkeepingStep_recordHealthCheck _ _ _ _ _ _ _ _)
    (bookkeepingStep_recordRotationAuditEvents _ _ _ _)

theorem checkKeyRotationStatusT_total (mgrCfg : KeyRotationConfig) (now : Int) (s : SysState)
    (keyName : String) (cs : CheckSource) :
    ∃ st s', checkKeyRotationStatusT mgrCfg now s keyName cs = .ok (st, s') ∧
      BookkeepingStep s s' := by
  cases hl : lookupKM (readKeyMetadataT s) keyName with
  | none =>
    simp only [checkKeyRotationStatusT, hl]
    exact ⟨_, s, rfl, bookkeepingStep_refl s⟩
  | some km =>
    simp only [checkKeyRotationStatusT, hl]
    exact ⟨_, _, rfl, bookkeepingStep_processHealthCheckAndAudit _ _ _ _ _⟩

theorem getKeyInfoT_total (mgrCfg : KeyRotationConfig) (now : Int) (s : SysState)
    (keyName : String) :
    ∃ ki s', getKeyInfoT mgrCfg now s keyName = .ok (ki, s') ∧ BookkeepingStep s s' := by
  cases hl : lookupKM (readKeyMetadataT s) keyName with
  | none =>
    simp only [getKeyInfoT, hl]
    exact ⟨_, s, rfl, bookkeepingStep_refl s⟩
  | some km =>
    obtain ⟨st, s', heq, hstep⟩ := checkKeyRotationStatusT_total mgrCfg now s keyName .api
    simp only [getKeyInfoT, hl, heq]
    exact ⟨_, s', rfl, hstep⟩

theorem getComprehensiveKeyInfoT_total (mgrCfg : KeyRotationConfig) (now : Int) (s : SysState)
    (keyName : String) :
    ∃ ki s', getComprehensiveKeyInfoT mgrCfg now s keyName = .ok (ki, s') ∧
      BookkeepingStep s s' := by
  cases hl : lookupKM (readKeyMetadataT s) keyName with
  | none =>
    simp only [getComprehensiveKeyInfoT, hl]
    exact ⟨_, s, rfl, bookkeepingStep_refl s⟩
  | some km =>
    obtain ⟨st, s', heq, hstep⟩ := checkKeyRotationStatusT_total mgrCfg now s keyName .api
    simp only [getComprehensiveKeyInfoT, hl, heq]
    exact ⟨_, s', rfl, hstep⟩

theorem performRotationChecks_total (mgrCfg : KeyRotationConfig) (now : Int)
    (keys : List String) : ∀ s : SysState,
    ∃ cs s', performRotationChecks mgrCfg now s keys = .ok (cs, s') ∧ BookkeepingStep s s' := by
  induction keys with
  | nil => exact fun s => ⟨[], s, rfl, bookkeepingStep_refl s⟩
  | cons keyName rest ih =>
    intro s
    obtain ⟨st, s1, heq1, hstep1⟩ := checkKeyRotationStatusT_total mgrCfg now s keyName .scheduled
    obtain ⟨cs, s2, heq2, hstep2⟩ := ih s1
    refine ⟨(keyName, st) :: cs, s2, ?_, bookkeepingStep_trans hstep1 hstep2⟩
    simp only [performRotationChecks, heq1, heq2]

theorem checkAllKeysForRotation_total (mgrCfg : KeyRotationConfig) (now : Int) (s : SysState) :
    ∃ r s', checkAllKeysForRotation mgrCfg now s = .ok (r, s') ∧ BookkeepingStep s s' := by
  obtain ⟨cs, s', heq, hstep⟩ :=
    performRotationChecks_total mgrCfg now ((readKeyMetadataT s).map (·.1)) s
  simp only [checkAllKeysForRotation, heq]
  exact ⟨_, s', rfl, hstep⟩

theorem performComprehensiveAudit_total (mgrCfg : KeyRotationConfig) (now : Int)
    (s : SysState) :
    ∃ r s', performComprehensiveAudit mgrCfg now s = .ok (r, s') ∧ BookkeepingStep s s' := by
  obtain ⟨r, s', heq, hstep⟩ := checkAllKeysForRotation_total mgrCfg now s
  obtain ⟨ka, kb⟩ := r
  simp only [performComprehensiveAudit, heq]
  exact ⟨_, s', rfl, hstep⟩

theorem bookkeepingStep_performCleanup (mgrCfg : KeyRotationConfig) (now : Int) (s : SysState)
    (reason : RotationReason) :
    BookkeepingStep s (performCleanupAndFinalAudit mgrCfg now s reason) := by
  simp only [performCleanupAndFinalAudit]
  split
  · obtain ⟨r, s', heq, hstep⟩ := performComprehensiveAudit_total mgrCfg now s
    rw [heq]
    exact hstep
  · exact bookkeepingStep_refl s

theorem performPostRotationHealthCheck_total (mgrCfg : KeyRotationConfig) (now : Int)
    (s : SysState) (keyName : String) :
    ∃ s', performPostRotationHealthCheck mgrCfg now s keyName = .ok s' := by
  obtain ⟨st, s', heq, -⟩ := checkKeyRotationStatusT_total mgrCfg now s keyName .manual
  exact ⟨s', by simp only [performPostRotationHealthCheck, heq]⟩

theorem updateSingle_rotationAppend (s : SysState) (keyName : String) (km : KeyMetadata)
    (ev : RotationEvent)
    (hok : storeOkB s.metadata = true)
    (hkey : lookupKM s.metadata keyName = some km) :
    updateSingleKeyMetadataT s keyName
      { km with auditTrail :=
        { km.auditTrail with rotationHistory := km.auditTrail.rotationHistory ++ [ev] } } =
    .ok { s with metadata := setKM s.metadata keyName { km with auditTrail :=
            { km.auditTrail with
                rotationHistory := km.auditTrail.rotationHistory ++ [ev] } } } := by
  have hv : validateMetadataRecord (encodeStore s.metadata) = true := by
    rw [validateMetadataRecord_encodeStore]; exact hok
  have hok0 : keyMetadataOkB km = true := storeOkB_lookup _ _ _ hok hkey
  have hok1 : keyMetadataOkB
      { km with auditTrail :=
        { km.auditTrail with rotationHistory := km.auditTrail.rotationHistory ++ [ev] } } =
      true := hok0
  have hval2 : validateMetadataRecord (encodeStore (setKM s.metadata keyName
      { km with auditTrail :=
        { km.auditTrail with rotationHistory := km.auditTrail.rotationHistory ++ [ev] } })) =
      true := by
    rw [validateMetadataRecord_encodeStore]
    exact storeOkB_setKM _ _ _ hok hok1
  simp only [updateSingleKeyMetadataT, writeKeyMetadataT, readKeyMetadataT_valid hv, hval2,
    if_true]

theorem updateAuditTrailT_failure_effect (now : Int) (s : SysState)
    (keyName keyFilePath : String) (reason : RotationReason) (startTime : Int)
    (newKeyValue : String) (rr : RotationResult) (srk : Bool) (err : String)
    (pv : Option (List String)) (km : KeyMetadata)
    (hok : storeOkB s.metadata = true)
    (hkey : lookupKM s.metadata keyName = some km) :
    ∃ ev : RotationEvent,
      rotView (updateAuditTrailT now s keyName keyFilePath reason startTime newKeyValue rr srk
        false (some err) pv) keyName =
        some (km.rotationCount, km.auditTrail.rotationHistory ++ [ev]) ∧
      ev.success = false ∧ ev.errorDetails = some err := by
  have hv : validateMetadataRecord (encodeStore s.metadata) = true := by
    rw [validateMetadataRecord_encodeStore]; exact hok
  simp only [updateAuditTrailT, readKeyMetadataT_valid hv, hkey, Bool.false_and,
    Bool.false_eq_true, if_false]
  rw [updateSingle_rotationAppend s keyName km _ hok hkey]
  refine ⟨createAuditEntry startTime reason (getOldKeyHash s keyFilePath keyName false)
    (hashKey newKeyValue) rr pv false srk (some err), ?_, rfl, rfl⟩
  simp only [rotView, lookupKM_setKM, eq_self_iff_true, if_true, Option.map_some']

theorem afterStep_failure_append (now : Int) (s s2 : SysState) (keyName keyFilePath : String)
    (reason : RotationReason) (startTime : Int) (newKeyValue : String) (rr : RotationResult)
    (srk : Bool) (err : String) (pv : Option (List String)) (km : KeyMetadata)
    (hstep : BookkeepingStep s s2)
    (hok : storeOkB s.metadata = true)
    (hkey : lookupKM s.metadata keyName = some km) :
    ∃ ev : RotationEvent,
      rotView (updateAuditTrailT now s2 keyName keyFilePath reason startTime newKeyValue rr srk
        false (some err) pv) keyName =
        some (km.rotationCount, km.auditTrail.rotationHistory ++ [ev]) ∧
      ev.success = false ∧ ev.errorDetails = some err := by
  have hok2 : storeOkB s2.metadata = true := hstep.1 hok
  have hrv : rotView s2 keyName = some (km.rotationCount, km.auditTrail.rotationHistory) := by
    rw [hstep.2 keyName]
    simp [rotView, hkey]
  cases hc : lookupKM s2.metadata keyName with
  | none => simp [rotView, hc] at hrv
  | some km2 =>
    simp only [rotView, hc, Option.map_some', Option.some.injEq, Prod.mk.injEq] at hrv
    obtain ⟨h1, h2⟩ := hrv
    obtain ⟨ev, hev, hs, hd⟩ := updateAuditTrailT_failure_effect now s2 keyName keyFilePath
      reason startTime newKeyValue rr srk err pv km2 hok2 hc
    exact ⟨ev, by rw [hev, h1, h2], hs, hd⟩

theorem handleRotationFailure_effect (mgrCfg : KeyRotationConfig) (now : Int) (s : SysState)
    (err keyName : String) (reason : RotationReason) (rr : RotationResult)
    (environmentFile keyFilePath : String) (startTime : Int) (newKeyValue : String)
    (srk : Bool) (pv : List String) (km : KeyMetadata)
    (hok : storeOkB s.metadata = true)
    (hkey : lookupKM s.metadata keyName = some km) :
    ∃ ev : RotationEvent,
      rotView (handleRotationFailure mgrCfg now s err keyName reason rr environmentFile
        keyFilePath startTime newKeyValue srk pv) keyName =
        some (km.rotationCount, km.auditTrail.rotationHistory ++ [ev]) ∧
      ev.success = false ∧ ev.errorDetails = some err := by
  obtain ⟨ki, s', hgk, hstep1⟩ := getKeyInfoT_total mgrCfg now s keyName
  simp only [handleRotationFailure, hgk]
  exact afterStep_failure_append now s _ keyName keyFilePath reason startTime newKeyValue _
    srk err (some pv) km
    (bookkeepingStep_trans hstep1 (bookkeepingStep_recordAuditEvent _ _ _ _ _ _ _ _))
    hok hkey

theorem bookkeepingStep_recordRotationStartAudit (now : Int) (s : SysState)
    (keyName environmentFile : String) (reason : RotationReason) (customMaxAge : Option Int)
    (srk : Bool) :
    BookkeepingStep s (recordRotationStartAudit now s keyName environmentFile reason
      customMaxAge srk) := by
  simp only [recordRotationStartAudit]
  exact bookkeepingStep_recordAuditEvent _ _ _ _ _ _ _ _

theorem bookkeepingStep_updateKeyValue (s : SysState) (f n v : String) :
    BookkeepingStep s (updateKeyValue s f n v) :=
  metadata_eq_bookkeepingStep rfl

theorem updateAndVerifyKey_snd (s : SysState) (kfp keyName nkv : String) :
    (updateAndVerifyKey s kfp keyName nkv).2 = updateKeyValue s kfp keyName nkv := by
  simp only [updateAndVerifyKey]
  split <;> first | rfl | (split <;> rfl)

theorem reEncrypt_ok_metadata (ops : CryptoOps) (s : SysState) (envF : String)
    (dv : List (String × String)) (keyName : String) (cnt : Nat) (s' : SysState)
    (h : reEncryptEnvironmentVariables ops s envF dv keyName = .ok (cnt, s')) :
    s'.metadata = s.metadata := by
  by_cases hemp : dv.isEmpty = true
  · simp only [reEncryptEnvironmentVariables, hemp, eq_self_iff_true, if_true,
      Except.ok.injEq, Prod.mk.injEq] at h
    rw [← h.2]
  · rw [Bool.not_eq_true] at hemp
    simp only [reEncryptEnvironmentVariables, hemp, Bool.false_eq_true, if_false] at h
    cases h1 : validateEncryptionKey ops s keyName with
    | error e1 => simp only [h1] at h; exact Except.noConfusion h
    | ok u =>
      simp only [h1] at h
      cases h2 : loadEnvironmentFile s envF with
      | error e2 => simp only [h2] at h; exact Except.noConfusion h
      | ok lines =>
        simp only [h2] at h
        cases h3 : reEncryptVariables ops keyName lines dv with
        | error e3 => simp only [h3] at h; exact Except.noConfusion h
        | ok upd =>
          simp only [h3, Except.ok.injEq, Prod.mk.injEq] at h
          rw [← h.2]
          rfl

theorem validateAndGetKeyInfo_ok_bookkeeping (mgrCfg : KeyRotationConfig) (now : Int)
    (s : SysState) (keyName : String) (km : KeyMetadata) (s1 : SysState)
    (h : validateAndGetKeyInfo mgrCfg now s keyName = .ok (km, s1)) :
    BookkeepingStep s s1 := by
  obtain ⟨ki, s', hgk, hstep⟩ := getComprehensiveKeyInfoT_total mgrCfg now s keyName
  simp only [validateAndGetKeyInfo, hgk] at h
  cases hm : ki.metadata with
  | none => simp only [hm] at h; exact Except.noConfusion h
  | some km' =>
    simp only [hm] at h
    cases hb : ki.keyExists with
    | false =>
      simp only [hb, Bool.false_eq_true, if_false] at h
      exact Except.noConfusion h
    | true =>
      simp only [hb, eq_self_iff_true, if_true, Except.ok.injEq, Prod.mk.injEq] at h
      rw [← h.2]
      exact hstep

theorem rotateBody_error_bookkeeping (ops : CryptoOps) (mgrCfg : KeyRotationConfig)
    (now startTime : Int) (s0 : SysState)
    (keyFilePath keyName newKeyValue environmentFile : String) (reason : RotationReason)
    (customMaxAge : Option Int) (srk : Bool) (e : String) (rr : RotationResult)
    (pv : List String) (serr : SysState)
    (h : rotateKeyWithAuditBody ops mgrCfg now startTime s0 keyFilePath keyName newKeyValue
      environmentFile reason customMaxAge srk = .error (e, rr, pv, serr)) :
    BookkeepingStep s0 serr := by
  simp only [rotateKeyWithAuditBody] at h
  cases h1 : validateAndGetKeyInfo mgrCfg now s0 keyName with
  | error e1 =>
    simp only [h1, Except.error.injEq, Prod.mk.injEq] at h
    obtain ⟨-, -, -, h4⟩ := h
    subst h4
    exact bookkeepingStep_refl s0
  | ok p =>
    obtain ⟨km0, s1⟩ := p
    simp only [h1] at h
    have hs1 : BookkeepingStep s0 s1 :=
      validateAndGetKeyInfo_ok_bookkeeping mgrCfg now s0 keyName km0 s1 h1
    set s2 := recordRotationStartAudit now s1 keyName environmentFile reason customMaxAge srk
      with hs2d
    have hstep2 : BookkeepingStep s1 s2 := by
      rw [hs2d]
      exact bookkeepingStep_recordRotationStartAudit now s1 keyName environmentFile reason
        customMaxAge srk
    have hs2 : BookkeepingStep s0 s2 := bookkeepingStep_trans hs1 hstep2
    cases h2 : getAndValidateOldKey s2 keyFilePath keyName with
    | error e2 =>
      simp only [h2, Except.error.injEq, Prod.mk.injEq] at h
      obtain ⟨-, -, -, h4⟩ := h
      subst h4
      exact hs2
    | ok oldv =>
      simp only [h2] at h
      cases h3 : decryptEnvironmentVariables ops s2 keyName environmentFile srk with
      | error e3 =>
        simp only [h3, Except.error.injEq, Prod.mk.injEq] at h
        obtain ⟨-, -, -, h4⟩ := h
        subst h4
        exact hs2
      | ok dd =>
        simp only [h3] at h
        have hs3 : BookkeepingStep s0
            (updateAndVerifyKey s2 keyFilePath keyName newKeyValue).2 := by
          rw [updateAndVerifyKey_snd]
          exact bookkeepingStep_trans hs2 (bookkeepingStep_updateKeyValue _ _ _ _)
        cases h4 : (updateAndVerifyKey s2 keyFilePath keyName newKeyValue).1 with
        | error e4 =>
          simp only [h4, Except.error.injEq, Prod.mk.injEq] at h
          obtain ⟨-, -, -, h5⟩ := h
          subst h5
          exact hs3
        | ok u =>
          simp only [h4] at h
          cases h5 : reEncryptEnvironmentVariables ops
              (updateAndVerifyKey s2 keyFilePath keyName newKeyValue).2 environmentFile dd
              keyName with
          | error e5 =>
            simp only [h5, Except.error.injEq, Prod.mk.injEq] at h
            obtain ⟨-, -, -, h6⟩ := h
            subst h6
            exact hs3
          | ok q =>
            obtain ⟨cnt, s4⟩ := q
            simp only [h5] at h
            have hs4 : BookkeepingStep s0 s4 :=
              bookkeepingStep_trans hs3
                (metadata_eq_bookkeepingStep (reEncrypt_ok_metadata _ _ _ _ _ _ _ h5))
            cases h6 : createValidatedRotationConfig mgrCfg customMaxAge with
            | error e6 =>
              simp only [h6, Except.error.injEq, Prod.mk.injEq] at h
              obtain ⟨-, -, -, h7⟩ := h
              subst h7
              exact hs4
            | ok vcfg =>
              simp only [h6] at h
              cases h7 : updateKeyMetadataAfterRotation now s4 keyName km0 environmentFile dd
                  vcfg with
              | error e7 =>
                simp only [h7, Except.error.injEq, Prod.mk.injEq] at h
                obtain ⟨-, -, -, h8⟩ := h
                subst h8
                exact hs4
              | ok p7 =>
                obtain ⟨um, s5⟩ := p7
                simp only [h7] at h
                split at h
                next e8 heq8 =>
                  obtain ⟨s8, h8⟩ := performPostRotationHealthCheck_total mgrCfg now _ keyName
                  rw [h8] at heq8
                  exact Except.noConfusion heq8
                next s8 heq8 =>
                  exact Except.noConfusion h

/-- C3: if `rotateKeyWithAudit` raises an exception at any step (for a key
present in a validated store) — for example re-encryption throwing partway
through a batch — the thrown error propagates to the caller, a
`RotationEvent` with `success = false` carrying the error text is appended
to the key's `rotationHistory`, and the key's `rotationCount` is not
incremented. -/
theorem rotateKeyWithAudit_failure_effects (ops : CryptoOps) (mgrCfg : KeyRotationConfig)
    (now startTime : Int) (s0 : SysState)
    (keyFilePath keyName newKeyValue environmentFile : String) (reason : RotationReason)
    (customMaxAge : Option Int) (srk : Bool) (e : String) (km0 : KeyMetadata)
    (hvalid : validateMetadataRecord (encodeStore s0.metadata) = true)
    (hkey : lookupKM s0.metadata keyName = some km0)
    (herr : (rotateKeyWithAuditT ops mgrCfg now startTime s0 keyFilePath keyName newKeyValue
      environmentFile reason customMaxAge srk).1 = .error e) :
    ∃ km1 ev,
      lookupKM (rotateKeyWithAuditT ops mgrCfg now startTime s0 keyFilePath keyName
        newKeyValue environmentFile reason customMaxAge srk).2.metadata keyName = some km1 ∧
      km1.rotationCount = km0.rotationCount ∧
      km1.auditTrail.rotationHistory = km0.auditTrail.rotationHistory ++ [ev] ∧
      ev.success = false ∧ ev.errorDetails = some e := by
  have hok0 : storeOkB s0.metadata = true := by
    rw [← validateMetadataRecord_encodeStore]; exact hvalid
  cases hbody : rotateKeyWithAuditBody ops mgrCfg now startTime s0 keyFilePath keyName
      newKeyValue environmentFile reason customMaxAge srk with
  | ok p =>
    obtain ⟨rr1, pv1, sb⟩ := p
    simp only [rotateKeyWithAuditT, hbody] at herr
    exact Except.noConfusion herr
  | error q =>
    obtain ⟨e1, rr1, pv1, serr⟩ := q
    have hstep : BookkeepingStep s0 serr :=
      rotateBody_error_bookkeeping ops mgrCfg now startTime s0 keyFilePath keyName newKeyValue
        environmentFile reason customMaxAge srk e1 rr1 pv1 serr hbody
    simp only [rotateKeyWithAuditT, hbody, Except.error.injEq] at herr
    subst herr
    simp only [rotateKeyWithAuditT, hbody]
    have hokE : storeOkB serr.metadata = true := hstep.1 hok0
    have hrvE : rotView serr keyName =
        some (km0.rotationCount, km0.auditTrail.rotationHistory) := by
      rw [hstep.2 keyName]
      simp [rotView, hkey]
    cases hc : lookupKM serr.metadata keyName with
    | none => simp [rotView, hc] at hrvE
    | some kmM =>
      simp only [rotView, hc, Option.map_some', Option.some.injEq, Prod.mk.injEq] at hrvE
      obtain ⟨hm1, hm2⟩ := hrvE
      obtain ⟨ev, hev, hevs, hevd⟩ := handleRotationFailure_effect mgrCfg now serr e1 keyName
        reason rr1 environmentFile keyFilePath startTime newKeyValue srk pv1 kmM hokE hc
      rw [hm1, hm2] at hev
      have hcl := (bookkeepingStep_performCleanup mgrCfg now
        (handleRotationFailure mgrCfg now serr e1 keyName reason rr1 environmentFile
          keyFilePath startTime newKeyValue srk pv1) reason).2 keyName
      rw [hev] at hcl
      cases hfl : lookupKM (performCleanupAndFinalAudit mgrCfg now
          (handleRotationFailure mgrCfg now serr e1 keyName reason rr1 environmentFile
            keyFilePath startTime newKeyValue srk pv1) reason).metadata keyName with
      | none => simp [rotView, hfl] at hcl
      | some km1 =>
        simp only [rotView, hfl, Option.map_some', Option.some.injEq, Prod.mk.injEq] at hcl
        exact ⟨km1, ev, rfl, hcl.1, hcl.2, hevs, hevd⟩

/-- C3 witness: encryption fails on the second variable of a 3-variable
batch; the caller sees the thrown error, the rotation history gains a
failed event with the error text, and the rotation count stays at 0. -/
theorem rotateKeyWithAudit_failure_effects_witness :
    ∃ km1 ev,
      lookupKM (rotateKeyWithAuditT c3Ops mgr90 t80 t80 c3State "base.env" "DEV_KEY"
        "newKeyVal" "dev.env" .manual none false).2.metadata "DEV_KEY" = some km1 ∧
      km1.rotationCount = c3Km.rotationCount ∧
      km1.auditTrail.rotationHistory = c3Km.auditTrail.rotationHistory ++ [ev] ∧
      ev.success = false ∧ ev.errorDetails = some "boom" :=
  rotateKeyWithAudit_failure_effects c3Ops mgr90 t80 t80 c3State "base.env" "DEV_KEY"
    "newKeyVal" "dev.env" .manual none false "boom" c3Km (by decide) (by decide) rfl
